import Mathlib

/-!
Verification of the Gigradar→HubSpot integration glue service
(`integrations/models.py`, `integrations/services.py`, `integrations/views.py`).

The Python code is shallowly embedded: JSON payloads become an inductive
`Json` type with Python truthiness, the Django model instance becomes a
`Proposal` structure, the database table becomes a `List Proposal` with the
unique-constraint invariant stated explicitly, the HubSpot vendor API and the
Python/Django library primitives (`django.utils.dateparse.parse_datetime`,
`float(·)` on strings, `str(·)` on containers) are parameters of the model.
-/

/-- JSON-like Python values as they occur in webhook payloads.
Numbers are modelled as integers (no claim depends on float fine structure). -/
inductive Json where
  | null : Json
  | bool (b : Bool) : Json
  | num (n : Int) : Json
  | str (s : String) : Json
  | arr (elems : List Json) : Json
  | obj (fields : List (String × Json)) : Json

mutual

/-- Decidable equality on `Json` (the nested inductive defeats `deriving`). -/
def jsonDecEq : (a b : Json) → Decidable (a = b)
  | .null, .null => isTrue rfl
  | .bool x, .bool y =>
    if h : x = y then isTrue (by rw [h]) else isFalse (fun hh => h (by injection hh))
  | .num x, .num y =>
    if h : x = y then isTrue (by rw [h]) else isFalse (fun hh => h (by injection hh))
  | .str x, .str y =>
    if h : x = y then isTrue (by rw [h]) else isFalse (fun hh => h (by injection hh))
  | .arr xs, .arr ys =>
    match jsonListDecEq xs ys with
    | isTrue h => isTrue (by rw [h])
    | isFalse h => isFalse (fun hh => h (by injection hh))
  | .obj xs, .obj ys =>
    match jsonFieldsDecEq xs ys with
    | isTrue h => isTrue (by rw [h])
    | isFalse h => isFalse (fun hh => h (by injection hh))
  | .null, .bool _ => isFalse (fun h => Json.noConfusion h)
  | .null, .num _ => isFalse (fun h => Json.noConfusion h)
  | .null, .str _ => isFalse (fun h => Json.noConfusion h)
  | .null, .arr _ => isFalse (fun h => Json.noConfusion h)
  | .null, .obj _ => isFalse (fun h => Json.noConfusion h)
  | .bool _, .null => isFalse (fun h => Json.noConfusion h)
  | .bool _, .num _ => isFalse (fun h => Json.noConfusion h)
  | .bool _, .str _ => isFalse (fun h => Json.noConfusion h)
  | .bool _, .arr _ => isFalse (fun h => Json.noConfusion h)
  | .bool _, .obj _ => isFalse (fun h => Json.noConfusion h)
  | .num _, .null => isFalse (fun h => Json.noConfusion h)
  | .num _, .bool _ => isFalse (fun h => Json.noConfusion h)
  | .num _, .str _ => isFalse (fun h => Json.noConfusion h)
  | .num _, .arr _ => isFalse (fun h => Json.noConfusion h)
  | .num _, .obj _ => isFalse (fun h => Json.noConfusion h)
  | .str _, .null => isFalse (fun h => Json.noConfusion h)
  | .str _, .bool _ => isFalse (fun h => Json.noConfusion h)
  | .str _, .num _ => isFalse (fun h => Json.noConfusion h)
  | .str _, .arr _ => isFalse (fun h => Json.noConfusion h)
  | .str _, .obj _ => isFalse (fun h => Json.noConfusion h)
  | .arr _, .null => isFalse (fun h => Json.noConfusion h)
  | .arr _, .bool _ => isFalse (fun h => Json.noConfusion h)
  | .arr _, .num _ => isFalse (fun h => Json.noConfusion h)
  | .arr _, .str _ => isFalse (fun h => Json.noConfusion h)
  | .arr _, .obj _ => isFalse (fun h => Json.noConfusion h)
  | .obj _, .null => isFalse (fun h => Json.noConfusion h)
  | .obj _, .bool _ => isFalse (fun h => Json.noConfusion h)
  | .obj _, .num _ => isFalse (fun h => Json.noConfusion h)
  | .obj _, .str _ => isFalse (fun h => Json.noConfusion h)
  | .obj _, .arr _ => isFalse (fun h => Json.noConfusion h)

def jsonListDecEq : (xs ys : List Json) → Decidable (xs = ys)
  | [], [] => isTrue rfl
  | [], _ :: _ => isFalse (fun h => List.noConfusion h)
  | _ :: _, [] => isFalse (fun h => List.noConfusion h)
  | x :: xs, y :: ys =>
    match jsonDecEq x y, jsonListDecEq xs ys with
    | isTrue h1, isTrue h2 => isTrue (by rw [h1, h2])
    | isFalse h1, _ => isFalse (fun h => h1 (by injection h))
    | isTrue _, isFalse h2 => isFalse (fun h => h2 (by injection h))

def jsonFieldsDecEq : (xs ys : List (String × Json)) → Decidable (xs = ys)
  | [], [] => isTrue rfl
  | [], _ :: _ => isFalse (fun h => List.noConfusion h)
  | _ :: _, [] => isFalse (fun h => List.noConfusion h)
  | (k1, v1) :: xs, (k2, v2) :: ys =>
    if hk : k1 = k2 then
      match jsonDecEq v1 v2, jsonFieldsDecEq xs ys with
      | isTrue h1, isTrue h2 => isTrue (by rw [hk, h1, h2])
      | isFalse h1, _ => isFalse (fun h => by
          injection h with h3 h4
          exact h1 (congrArg Prod.snd h3))
      | isTrue _, isFalse h2 => isFalse (fun h => by
          injection h with h3 h4
          exact h2 h4)
    else isFalse (fun h => by
      injection h with h3 h4
      exact hk (congrArg Prod.fst h3))

end

instance : DecidableEq Json := jsonDecEq

/-- Python truthiness (`bool(v)`) of a JSON value. -/
def truthy : Json → Bool
  | .null => false
  | .bool b => b
  | .num n => n != 0
  | .str s => s != ""
  | .arr es => !es.isEmpty
  | .obj fs => !fs.isEmpty

/-- First binding of key `k` in an association list (Python dict lookup;
dict keys are unique, so first-match is exact). -/
def lookupKey : List (String × Json) → String → Option Json
  | [], _ => none
  | (k', v) :: rest, k => if k' = k then some v else lookupKey rest k

/-- `d.get(k)` when `d` is known to be a dict; `none` means Python `None`
or a missing key. -/
def jGet : Json → String → Option Json
  | .obj fs, k => lookupKey fs k
  | _, _ => none

/-- `d.get(k, default)`: the stored value, or the default when absent. -/
def jGetD (d : Json) (k : String) (dflt : Json) : Json :=
  (jGet d k).getD dflt

/-- Python `a or b`: `a` when truthy, else `b`. -/
def jOr (a b : Json) : Json := if truthy a then a else b

/-- Python `a or b or c`. -/
def jOr3 (a b c : Json) : Json := jOr (jOr a b) c

/-- `'k' in d` (dict key containment). -/
def jHasKey (d : Json) (k : String) : Bool :=
  (jGet d k).isSome

/-- Outcome of `django.utils.dateparse.parse_datetime` on a string:
a parsed datetime, `None` when the string does not match the expected
datetime format, or a raised `ValueError` (well-formed match, invalid
date such as month 13). -/
inductive DtParse where
  | ok (t : Int) : DtParse
  | noMatch : DtParse
  | err : DtParse
deriving DecidableEq

/-- Library/builtin primitives the Python code calls into, parameterised:
the Django datetime parser, Python `float(·)` on strings, and Python
`str(·)` on list/dict values (only scalars' `str(·)` is fixed by the model;
no claim depends on container rendering). -/
structure PyPrims where
  parseDatetime : String → DtParse
  strFloat : String → Option Rat
  strContainer : Json → String

/-- Python `str(v)`; scalars rendered as Python renders them, containers
delegated to the primitive parameter. -/
def pyStrOf (p : PyPrims) : Json → String
  | .null => "None"
  | .bool true => "True"
  | .bool false => "False"
  | .num n => toString n
  | .str s => s
  | v => p.strContainer v

/-- Python `float(v)` as used on the truthy budget value: numbers and
booleans coerce, strings go through the string parser, anything else
raises (`none`, leading the caller's bare `except` to skip the field). -/
def pyFloat (p : PyPrims) : Json → Option Rat
  | .num n => some (n : Rat)
  | .bool true => some 1
  | .bool false => some 0
  | .str s => p.strFloat s
  | _ => none

/-- Value held by a `DateTimeField` attribute after
`create_from_webhook_data`: either a datetime produced by
`parse_datetime`, or a non-string payload value assigned verbatim. -/
inductive TimeVal where
  | parsed (t : Int) : TimeVal
  | rawv (v : Json) : TimeVal
deriving DecidableEq

/-- In-memory image of a `GigradarProposal` row.  Field values are kept as
the Python values the model instance holds after assignment (the code never
normalises them).  The auto-managed `created`/`updated` columns are
system-clock driven and outside the model. -/
structure Proposal where
  proposal_id : Json
  opportunity_id : Json
  job_id : Json
  status : Json
  sent_at : Option TimeVal
  scheduled_at : Option TimeVal
  created_at : Option TimeVal
  has_error : Json
  error_code : Json
  error_message : Json
  scanner_id : Json
  scanner_name : Json
  team_id : Json
  team_name : Json
  job_title : Json
  job_budget : Option Rat
  job_type : Json
  client_email : Json
  client_name : Json
  client_company : Json
  hubspot_contact_id : Json
  hubspot_deal_id : Json
  raw_data : Json
deriving DecidableEq

/-- Fresh row produced by `get_or_create(proposal_id=..., defaults=\x7b\x7d)`:
Django field defaults (empty string for the non-nullable `opportunity_id`
CharField, `None` for nullable fields, `False` for `has_error`, `\x7b\x7d` for
`raw_data`). -/
def bareProposal (pid : Json) : Proposal where
  proposal_id := pid
  opportunity_id := .str ""
  job_id := .null
  status := .null
  sent_at := none
  scheduled_at := none
  created_at := none
  has_error := .bool false
  error_code := .null
  error_message := .null
  scanner_id := .null
  scanner_name := .null
  team_id := .null
  team_name := .null
  job_title := .null
  job_budget := none
  job_type := .null
  client_email := .null
  client_name := .null
  client_company := .null
  hubspot_contact_id := .null
  hubspot_deal_id := .null
  raw_data := .obj []

/-- `data.get('id') or data.get('proposalId') or data.get('_id')` followed
by the `if not proposal_id` truthiness guard. -/
def extractProposalId (d : Json) : Option Json :=
  let v := jOr3 (jGetD d "id" .null) (jGetD d "proposalId" .null) (jGetD d "_id" .null)
  if truthy v then some v else none

/-- The `if 'sent' in data: try: ... except: pass` block.  A string value
goes through `parse_datetime` (a no-match returns `None` and is assigned;
a raised error leaves the field untouched); a non-string value is assigned
verbatim (Python `None` clears the field). -/
def updTimestamp (p : PyPrims) (prior : Option TimeVal) : Option Json → Option TimeVal
  | none => prior
  | some (.str s) =>
    match p.parseDatetime s with
    | .ok t => some (.parsed t)
    | .noMatch => none
    | .err => prior
  | some .null => none
  | some v => some (.rawv v)

/-- The `createdAt`/`created_at` block: guarded by key presence of either
name, value taken by the two-key `or` chain. -/
def updCreatedAt (p : PyPrims) (prior : Option TimeVal) (d : Json) : Option TimeVal :=
  if jHasKey d "createdAt" || jHasKey d "created_at" then
    updTimestamp p prior (some (jOr (jGetD d "createdAt" .null) (jGetD d "created_at" .null)))
  else prior

/-- The chain `job.get('budget') or job.get('hourlyRate') or job.get('fixedPrice')`. -/
def budgetChain (job : Json) : Json :=
  jOr3 (jGetD job "budget" .null) (jGetD job "hourlyRate" .null) (jGetD job "fixedPrice" .null)

/-- The budget block inside the `isinstance(job, dict)` branch, with its
`if budget:` truthiness guard and the `float(...)` coercion under a bare
`except: pass`. -/
def updBudget (p : PyPrims) (prior : Option Rat) (job : Json) : Option Rat :=
  if truthy (budgetChain job) then
    match pyFloat p (budgetChain job) with
    | some q => some q
    | none => prior
  else prior

/-- `isinstance(v, dict)`. -/
def isObj : Json → Bool
  | .obj _ => true
  | _ => false

/-- Assignments up to (and excluding) the `job` block of
`create_from_webhook_data`, applied to the row `r` as it stands. -/
def applyBase (p : PyPrims) (r : Proposal) (d : Json) : Proposal :=
  { r with
    opportunity_id := jOr3 (jGetD d "opportunityId" .null) (jGetD d "opportunity_id" .null) (.str "")
    job_id := jOr3 (jGetD d "jobId" .null) (jGetD d "job_id" .null) (.str "")
    sent_at := updTimestamp p r.sent_at (jGet d "sent")
    scheduled_at := updTimestamp p r.scheduled_at (jGet d "scheduledAt")
    created_at := updCreatedAt p r.created_at d
    has_error := jOr (jGetD d "error" (.bool false)) (jGetD d "hasError" (.bool false))
    error_code := jOr (jGetD d "errorCode" .null) (jGetD d "error_code" .null)
    error_message := jOr (jGetD d "errorMessage" .null) (jGetD d "error_message" .null)
    scanner_id := jOr (jGetD d "scannerId" .null) (jGetD d "scanner_id" .null)
    scanner_name := jOr (jGetD d "scannerName" .null) (jGetD d "scanner_name" .null)
    team_id := jOr (jGetD d "teamId" .null) (jGetD d "team_id" .null)
    team_name := jOr (jGetD d "teamName" .null) (jGetD d "team_name" .null) }

/-- The nested client block: `client = job.get('client', \x7b\x7d)`; a dict
supplies nested keys, anything else falls back to flat keys on `job`. -/
def applyClient (r : Proposal) (job : Json) : Proposal :=
  if isObj (jGetD job "client" (.obj [])) then
    { r with
      client_email := jGetD (jGetD job "client" (.obj [])) "email" .null
      client_name := jGetD (jGetD job "client" (.obj [])) "name" .null
      client_company := jGetD (jGetD job "client" (.obj [])) "company" .null }
  else
    { r with
      client_email := jGetD job "clientEmail" .null
      client_name := jGetD job "clientName" .null
      client_company := jGetD job "companyName" .null }

/-- The `job = data.get('job', \x7b\x7d)` block, guarded by
`isinstance(job, dict)`; a non-dict leaves every job/client field as is. -/
def applyJob (p : PyPrims) (r : Proposal) (d : Json) : Proposal :=
  if isObj (jGetD d "job" (.obj [])) then
    applyClient
      { r with
        job_title := jOr (jGetD (jGetD d "job" (.obj [])) "title" .null)
                         (jGetD (jGetD d "job" (.obj [])) "jobTitle" .null)
        job_budget := updBudget p r.job_budget (jGetD d "job" (.obj []))
        job_type := jOr (jGetD (jGetD d "job" (.obj [])) "type" .null)
                        (jGetD (jGetD d "job" (.obj [])) "jobType" .null) }
      (jGetD d "job" (.obj []))
  else r

/-- The full field-update body of `create_from_webhook_data` after
`get_or_create`: every assignment the Python method performs, in source
order, over the fetched-or-fresh row `prior`, ending with
`proposal.raw_data = data`. -/
def applyPayload (p : PyPrims) (prior : Proposal) (d : Json) : Proposal :=
  { applyJob p (applyBase p prior d) d with raw_data := d }

/-- Python exceptions that escape or are raised by the embedded code. -/
inductive PyExc where
  | valueError (msg : String) : PyExc
  | attributeError (msg : String) : PyExc
  | typeError (msg : String) : PyExc
deriving DecidableEq

/-- The proposal table: list of rows, oldest first.  The DB-level unique
constraint on `proposal_id` is carried as an explicit hypothesis
(`countId s pid ≤ 1`) where needed. -/
abbrev Store := List Proposal

/-- Number of rows whose `proposal_id` equals `pid`. -/
def countId : Store → Json → Nat
  | [], _ => 0
  | r :: rs, pid => (if r.proposal_id = pid then 1 else 0) + countId rs pid

/-- First row with the given `proposal_id`, if any (`objects.get_or_create`
lookup against the unique column). -/
def findById : Store → Json → Option Proposal
  | [], _ => none
  | r :: rs, pid => if r.proposal_id = pid then some r else findById rs pid

/-- Overwrite the first row matching `pid` (a `save()` of an existing row). -/
def replaceById : Store → Json → Proposal → Store
  | [], _, _ => []
  | r :: rs, pid, u => if r.proposal_id = pid then u :: rs else r :: replaceById rs pid u

/-- `GigradarProposal.create_from_webhook_data(data)` acting on the table:
identifier extraction (raising `ValueError` when falsy/missing, or
`AttributeError` when `data` is not a dict), `get_or_create`, the field
updates, and `save()`.  Returns the saved row and the new table. -/
def create_from_webhook_data (p : PyPrims) (s : Store) (d : Json) :
    Except PyExc (Proposal × Store) :=
  match d with
  | .obj _ =>
    match extractProposalId d with
    | none => .error (.valueError "Proposal ID не знайдено в даних")
    | some pid =>
      match findById s pid with
      | some prior =>
        let u := applyPayload p prior d
        .ok (u, replaceById s pid u)
      | none =>
        let u := applyPayload p (bareProposal pid) d
        .ok (u, s ++ [u])
  | _ => .error (.attributeError "object has no attribute get")

/-- The table after one delivery attempt: updated on success, untouched
when the method raises (the raise precedes any write). -/
def stepStore (p : PyPrims) (s : Store) (d : Json) : Store :=
  match create_from_webhook_data p s d with
  | .ok (_, s') => s'
  | .error _ => s

/-- The table after `n` identical deliveries. -/
def deliverN (p : PyPrims) : Nat → Store → Json → Store
  | 0, s, _ => s
  | n + 1, s, d => deliverN p n (stepStore p s d) d

/-- Concrete primitives for witnesses: a datetime parser recognising the two
timestamps used in the example payloads (and raising on one deliberately
invalid-but-well-formed date), and a float parser for "100". -/
def pTest : PyPrims where
  parseDatetime := fun s =>
    if s = "2024-01-02T03:04:05" then .ok 1704164645
    else if s = "2024-01-03T00:00:00" then .ok 1704240000
    else if s = "2024-13-45T99:99:99" then .err
    else .noMatch
  strFloat := fun s => if s = "100" then some 100 else none
  strContainer := fun _ => ""

/-- A well-formed proposal webhook payload used by witnesses. -/
def payloadA : Json := .obj
  [("id", .str "p1"),
   ("opportunityId", .str "o1"),
   ("jobId", .str "j1"),
   ("status", .str "SENT"),
   ("sent", .str "2024-01-02T03:04:05"),
   ("scheduledAt", .str "2024-01-03T00:00:00"),
   ("createdAt", .str "2024-01-02T03:04:05"),
   ("error", .bool false),
   ("scannerId", .str "sc1"),
   ("scannerName", .str "Scanner"),
   ("teamId", .str "t1"),
   ("teamName", .str "Team"),
   ("job", .obj
     [("title", .str "Build a site"),
      ("budget", .str "100"),
      ("type", .str "hourly"),
      ("client", .obj
        [("email", .str "a@b.com"),
         ("name", .str "Ann"),
         ("company", .str "Acme Co")])])]

/-- The record handed back by `create_from_webhook_data`, when it succeeds. -/
def savedRecord (p : PyPrims) (s : Store) (d : Json) : Option Proposal :=
  match create_from_webhook_data p s d with
  | .ok (u, _) => some u
  | .error _ => none

/-- An existing row whose `status` was previously set. -/
def proposalOld : Proposal := { bareProposal (.str "p1") with status := .str "OLD" }

/-- A re-delivery payload for the same proposal carrying a new status. -/
def payloadStatusNew : Json := .obj [("id", .str "p1"), ("status", .str "NEW")]


/-! ### Embedding of `integrations/services.py` -/

/-- Python `s.lower()` on the company name (ASCII case folding). -/
def pyLower (s : String) : String := ⟨s.data.map Char.toLower⟩

/-- Python `s.replace(' ', '_')` (single-character replacement). -/
def replaceSpaces (s : String) : String :=
  ⟨s.data.map (fun ch => if ch = ' ' then '_' else ch)⟩

/-- `str(e)` of a raised exception. -/
def pyExcMsg : PyExc → String
  | .valueError m => m
  | .attributeError m => m
  | .typeError m => m

/-- Outcome of the HubSpot contact-create API call: the created object's
id, or a raised contacts `ApiException` carrying its HTTP status. -/
inductive ContactApiResult where
  | ok (id : String) : ContactApiResult
  | err (status : Int) : ContactApiResult
deriving DecidableEq

/-- Outcome of the HubSpot contact search API: a page of matching contact
ids, or a raised exception. -/
inductive SearchApiResult where
  | ok (ids : List String) : SearchApiResult
  | exc : SearchApiResult
deriving DecidableEq

/-- Outcome of the HubSpot deal-create API. -/
inductive DealApiResult where
  | ok (id : String) : DealApiResult
  | err (status : Int) : DealApiResult
deriving DecidableEq

/-- The external HubSpot API, modelled as response functions of the request
contents (the environment oracle for one request's processing). -/
structure CrmOracle where
  contactCreateApi : List (String × Json) → ContactApiResult
  contactSearchApi : Json → SearchApiResult
  dealCreateApi : List (String × Json) → DealApiResult

/-- Call log of the CRM client (used to state side-effect claims). -/
inductive CrmCall where
  | contactCreate (props : List (String × Json)) : CrmCall
  | contactSearch (email : Json) : CrmCall
  | dealCreate (props : List (String × Json)) : CrmCall
  | associate (dealId contactId : String) : CrmCall
deriving DecidableEq

/-- The `properties` dict built by `HubSpotService.create_contact` (each
optional argument included under its Python truthiness guard, then
`properties.update(kwargs)`). -/
def contactProps (email firstname lastname phone company : Json)
    (kwargs : List (String × Json)) : List (String × Json) :=
  [("email", email)]
    ++ (if truthy firstname then [("firstname", firstname)] else [])
    ++ (if truthy lastname then [("lastname", lastname)] else [])
    ++ (if truthy phone then [("phone", phone)] else [])
    ++ (if truthy company then [("company", company)] else [])
    ++ kwargs

/-- `HubSpotService._find_contact_by_email`: exact-email search; the first
result's id, `None` when the page is empty or the search raises. -/
def find_contact_by_email (o : CrmOracle) (email : Json) :
    Option String × List CrmCall :=
  match o.contactSearchApi email with
  | .ok ids => (ids.head?, [.contactSearch email])
  | .exc => (none, [.contactSearch email])

/-- `HubSpotService.create_contact`: create the contact; on a contacts
`ApiException` with status 409 (already exists) fall back to the exact-email
search, on any other `ApiException` return `None`. -/
def create_contact (o : CrmOracle) (email firstname lastname phone company : Json)
    (kwargs : List (String × Json)) : Option String × List CrmCall :=
  match o.contactCreateApi (contactProps email firstname lastname phone company kwargs) with
  | .ok cid =>
    (some cid, [.contactCreate (contactProps email firstname lastname phone company kwargs)])
  | .err st =>
    if st = 409 then
      ((find_contact_by_email o email).1,
        .contactCreate (contactProps email firstname lastname phone company kwargs)
          :: (find_contact_by_email o email).2)
    else
      (none, [.contactCreate (contactProps email firstname lastname phone company kwargs)])

/-- Python truthiness of an optional string (`if contact_id:`,
`bool(deal_id)`, `os.getenv` results). -/
def optTruthy : Option String → Bool
  | none => false
  | some s => s != ""

/-- The `properties` dict built by `HubSpotService.create_deal`. -/
def dealProps (dealname : String) (amount closedate : Option String)
    (dealstage pipeline : String) (kwargs : List (String × Json)) :
    List (String × Json) :=
  [("dealname", .str dealname)]
    ++ (match amount with
        | some a => if a ≠ "" then [("amount", Json.str a)] else []
        | none => [])
    ++ (match closedate with
        | some c0 => if c0 ≠ "" then [("closedate", Json.str c0)] else []
        | none => [])
    ++ (if dealstage ≠ "" then [("dealstage", Json.str dealstage)] else [])
    ++ (if pipeline ≠ "" then [("pipeline", Json.str pipeline)] else [])
    ++ kwargs

/-- `HubSpotService.create_deal`; on success with a truthy contact id the
deal→contact association call is issued (its own failures are swallowed and
never affect the returned deal id); a deals `ApiException` yields `None`. -/
def create_deal (o : CrmOracle) (dealname : String) (amount closedate : Option String)
    (dealstage pipeline : String) (contact_id : Option String)
    (kwargs : List (String × Json)) : Option String × List CrmCall :=
  match o.dealCreateApi (dealProps dealname amount closedate dealstage pipeline kwargs) with
  | .ok did =>
    (some did,
      .dealCreate (dealProps dealname amount closedate dealstage pipeline kwargs)
        :: (match contact_id with
            | some cid => if cid ≠ "" then [CrmCall.associate did cid] else []
            | none => []))
  | .err _ =>
    (none, [.dealCreate (dealProps dealname amount closedate dealstage pipeline kwargs)])

/-- The result document of `process_gigradar_opportunity`: its four keys. -/
structure ResultDoc where
  success : Bool
  contact_id : Option String
  deal_id : Option String
  errors : List String
deriving DecidableEq

/-- The dict `process_gigradar_opportunity` initialises `result` to. -/
def emptyResult : ResultDoc where
  success := false
  contact_id := none
  deal_id := none
  errors := []

/-- Python `v[:500]` on the job description: strings and lists slice,
anything else raises a `TypeError`. -/
def pySlice500 : Json → Except PyExc Json
  | .str s => .ok (.str (s.take 500))
  | .arr es => .ok (.arr (es.take 500))
  | _ => .error (.typeError "object is not subscriptable")

/-- The deal half of `process_gigradar_opportunity`, entered after the
contact step produced `cid` and logged `calls1`; evaluating
`job.get("description", "")[:500]` in the argument list can still raise. -/
def processDeals (p : PyPrims) (o : CrmOracle) (job jobId oppId : Json)
    (cid : Option String) (calls1 : List CrmCall) :
    ResultDoc × List CrmCall × Option String :=
  match pySlice500 (jGetD job "description" (.str "")) with
  | .error e => ({ emptyResult with contact_id := cid }, calls1, some (pyExcMsg e))
  | .ok descV =>
    let dres := create_deal o
      ("GigRadar Opportunity: " ++ pyStrOf p (jGetD job "title" (.str "Untitled Job")))
      (if truthy (jOr (jGetD job "budget" .null) (jGetD job "hourlyRate" .null))
       then some (pyStrOf p (jOr (jGetD job "budget" .null) (jGetD job "hourlyRate" .null)))
       else none)
      none "appointmentscheduled" "default" cid
      [("gigradar_opportunity_id", oppId), ("gigradar_job_id", jobId),
       ("job_title", jGetD job "title" (.str "")), ("job_description", descV)]
    ({ success := optTruthy dres.1, contact_id := cid, deal_id := dres.1, errors := [] },
     calls1 ++ dres.2, none)

/-- The body of the `try` block of `process_gigradar_opportunity`: the
partial result document, the CRM calls made, and the raised exception
message, if any (every `.get` on a non-dict raises `AttributeError`, as
does `.lower()` on a non-string company name). -/
def processInner (p : PyPrims) (o : CrmOracle) (d : Json) :
    ResultDoc × List CrmCall × Option String :=
  if isObj d then
    if isObj (jGetD d "job" (.obj [])) then
      if isObj (jGetD (jGetD d "job" (.obj [])) "client" (.obj [])) then
        if truthy (jOr (jGetD (jGetD (jGetD d "job" (.obj [])) "client" (.obj [])) "email" .null)
                       (jGetD (jGetD d "job" (.obj [])) "clientEmail" .null)) then
          let job := jGetD d "job" (.obj [])
          let clientV := jGetD job "client" (.obj [])
          let cres := create_contact o
            (jOr (jGetD clientV "email" .null) (jGetD job "clientEmail" .null))
            (jOr (jGetD clientV "name" .null) (jGetD job "clientName" .null))
            .null .null
            (jOr (jGetD clientV "company" .null) (jGetD job "companyName" .null)) []
          processDeals p o job (jGetD d "jobId" (.str "")) (jGetD d "id" (.str ""))
            cres.1 cres.2
        else
          match jOr3 (jGetD (jGetD (jGetD d "job" (.obj [])) "client" (.obj [])) "company" .null)
              (jGetD (jGetD d "job" (.obj [])) "companyName" .null)
              (.str "Unknown Company") with
          | .str c =>
            let cres := create_contact o
              (.str ((replaceSpaces (pyLower c)) ++ "@gigradar.placeholder"))
              .null .null .null (.str c) []
            processDeals p o (jGetD d "job" (.obj []))
              (jGetD d "jobId" (.str "")) (jGetD d "id" (.str "")) cres.1 cres.2
          | _ => (emptyResult, [], some "AttributeError: lower")
      else (emptyResult, [], some "AttributeError: get")
    else (emptyResult, [], some "AttributeError: get")
  else (emptyResult, [], some "AttributeError: get")

/-- `HubSpotService.process_gigradar_opportunity`: run the flow, catch any
raised exception, append its message to `errors`; always return a result
document with the four keys. -/
def process_gigradar_opportunity (p : PyPrims) (o : CrmOracle) (d : Json) :
    ResultDoc × List CrmCall :=
  match processInner p o d with
  | (r, calls, none) => (r, calls)
  | (r, calls, some m) => ({ r with errors := r.errors ++ [m] }, calls)

/-! ### Embedding of `integrations/views.py` -/

/-- Deployment environment configuration read by the webhook view
(`os.getenv` results: absent or a string). -/
structure Env where
  webhookToken : Option String
  webhookUsername : Option String
  webhookPassword : Option String
  hubspotToken : Option String

/-- Response bodies produced by the webhook view, by shape. -/
inductive RespTag where
  | invalidToken : RespTag
  | invalidJson : RespTag
  | authRequired : RespTag
  | oppSuccess : RespTag
  | oppPartial : RespTag
  | configError : RespTag
  | proposalSaved : RespTag
  | proposalError : RespTag
  | proposalFailed : RespTag
  | receivedUnknown : RespTag
  | internalError : RespTag
deriving DecidableEq

/-- An HTTP response: status code and body shape. -/
structure HttpResp where
  status : Nat
  tag : RespTag
deriving DecidableEq

/-- `valid_token and webhook_token != valid_token`. -/
def tokenMismatch (env : Env) (pathToken : String) : Bool :=
  match env.webhookToken with
  | some t => t != "" && pathToken != t
  | none => false

/-- Credentials configured but no `Basic ` authorization header present. -/
def basicAuthMissing (env : Env) (authHeader : String) : Bool :=
  optTruthy env.webhookUsername && optTruthy env.webhookPassword
    && !(authHeader.startsWith "Basic ")

/-- `GigradarWebhookView._handle_opportunity_create`: a missing or empty
`HUBSPOT_ACCESS_TOKEN` makes the `HubSpotService` constructor raise
`ValueError`, answered 200 with a configuration-error body; otherwise the
orchestrator runs and either way a 200 is returned. -/
def handle_opportunity_create (p : PyPrims) (o : CrmOracle) (env : Env) (s : Store)
    (data : Json) : HttpResp × Store × List CrmCall :=
  if optTruthy env.hubspotToken then
    if (process_gigradar_opportunity p o data).1.success then
      (⟨200, .oppSuccess⟩, s, (process_gigradar_opportunity p o data).2)
    else
      (⟨200, .oppPartial⟩, s, (process_gigradar_opportunity p o data).2)
  else (⟨200, .configError⟩, s, [])

/-- `GigradarWebhookView._handle_proposal_update`: `ValueError` (missing
identifier) and any other exception both answer 200 with an error body and
leave the table untouched. -/
def handle_proposal_update (p : PyPrims) (s : Store) (data : Json) :
    HttpResp × Store × List CrmCall :=
  match create_from_webhook_data p s data with
  | .ok (_, s2) => (⟨200, .proposalSaved⟩, s2, [])
  | .error (.valueError _) => (⟨200, .proposalError⟩, s, [])
  | .error _ => (⟨200, .proposalFailed⟩, s, [])

/-- `GigradarWebhookView.post`: static-token compare, JSON parse (`body` is
`none` when the request body is not valid JSON), optional Basic-auth
presence check, event routing, and the outer catch-all (a non-dict payload
makes `payload.get` raise, answered 200 with a generic error body). -/
def postView (p : PyPrims) (o : CrmOracle) (env : Env) (s : Store)
    (pathToken : String) (authHeader : String) (body : Option Json) :
    HttpResp × Store × List CrmCall :=
  if tokenMismatch env pathToken then (⟨401, .invalidToken⟩, s, [])
  else
    match body with
    | none => (⟨400, .invalidJson⟩, s, [])
    | some payload =>
      if basicAuthMissing env authHeader then (⟨401, .authRequired⟩, s, [])
      else if isObj payload then
        if jOr (jGetD payload "event" .null) (jGetD payload "type" .null)
            = .str "GIGRADAR.OPPORTUNITY.CREATE" then
          handle_opportunity_create p o env s
            (jOr (jGetD payload "data" .null) payload)
        else if jOr (jGetD payload "event" .null) (jGetD payload "type" .null)
              = .str "GIGRADAR.PROPOSAL.UPDATE"
            ∨ jOr (jGetD payload "event" .null) (jGetD payload "type" .null)
              = .str "GIGRADAR.PROPOSAL.CREATE" then
          handle_proposal_update p s (jOr (jGetD payload "data" .null) payload)
        else (⟨200, .receivedUnknown⟩, s, [])
      else (⟨200, .internalError⟩, s, [])

/-! ### Concrete fixtures for witnesses and counterexamples -/

/-- An existing row whose `sent_at` was previously populated. -/
def proposalSentEarlier : Proposal :=
  { bareProposal (.str "p1") with sent_at := some (.parsed 555) }

/-- A re-delivery payload whose date string does not match the datetime
format (`parse_datetime` returns `None` on it under `pTest`). -/
def payloadBadSent : Json := .obj [("id", .str "p1"), ("sent", .str "garbage")]

/-- A payload whose `scheduledAt` date string does not match the datetime
format (`parse_datetime` returns `None` on it under `pTest`). -/
def payloadBadScheduled : Json := .obj [("id", .str "p1"), ("scheduledAt", .str "garbage")]

/-- A payload whose `createdAt` date string matches the format but denotes
an impossible date (`parse_datetime` raises on it under `pTest`). -/
def payloadBadCreated : Json := .obj [("id", .str "p1"), ("createdAt", .str "2024-13-45T99:99:99")]

/-- CRM oracle for the all-success scenario. -/
def oracleOk : CrmOracle where
  contactCreateApi := fun _ => .ok "C100"
  contactSearchApi := fun _ => .ok ["C9"]
  dealCreateApi := fun _ => .ok "D100"

/-- CRM oracle reporting an already-existing contact (409 conflict). -/
def oracleConflict : CrmOracle where
  contactCreateApi := fun _ => .err 409
  contactSearchApi := fun _ => .ok ["C9"]
  dealCreateApi := fun _ => .ok "D100"

/-- CRM oracle failing every call with a non-conflict error. -/
def oracleFail : CrmOracle where
  contactCreateApi := fun _ => .err 500
  contactSearchApi := fun _ => .exc
  dealCreateApi := fun _ => .err 500

/-- Opportunity payload with no client email and company `"Acme Co"`. -/
def payloadOpportunity : Json := .obj
  [("id", .str "opp1"), ("jobId", .str "j1"),
   ("job", .obj
     [("title", .str "Build a site"), ("budget", .num 100),
      ("description", .str "A short description"),
      ("client", .obj [("company", .str "Acme Co")])])]

/-- Environment with a configured webhook token and no basic-auth creds. -/
def envTokenOnly : Env where
  webhookToken := some "secret"
  webhookUsername := none
  webhookPassword := none
  hubspotToken := some "hs"

/-- Environment with basic-auth credentials configured and no token. -/
def envCreds : Env where
  webhookToken := none
  webhookUsername := some "u"
  webhookPassword := some "p"
  hubspotToken := some "hs"

/-! ### Helper lemmas: the update is idempotent field by field -/

theorem updTimestamp_idem (p : PyPrims) (x : Option TimeVal) (v : Option Json) :
    updTimestamp p (updTimestamp p x v) v = updTimestamp p x v := by
  match v with
  | none => rfl
  | some .null => rfl
  | some (.bool b) => rfl
  | some (.num n) => rfl
  | some (.arr es) => rfl
  | some (.obj fs) => rfl
  | some (.str s) =>
    cases h : p.parseDatetime s <;> simp [updTimestamp, h]

theorem updCreatedAt_idem (p : PyPrims) (x : Option TimeVal) (d : Json) :
    updCreatedAt p (updCreatedAt p x d) d = updCreatedAt p x d := by
  by_cases h : (jHasKey d "createdAt" || jHasKey d "created_at") = true
  · simp [updCreatedAt, h, updTimestamp_idem]
  · simp [updCreatedAt, h]

theorem updBudget_idem (p : PyPrims) (x : Option Rat) (job : Json) :
    updBudget p (updBudget p x job) job = updBudget p x job := by
  by_cases h : truthy (budgetChain job) = true
  · cases hf : pyFloat p (budgetChain job) <;> simp [updBudget, h, hf]
  · simp [updBudget, h]

theorem applyClient_job_budget (r : Proposal) (job : Json) :
    (applyClient r job).job_budget = r.job_budget := by
  unfold applyClient; split <;> rfl

theorem applyClient_sent_at (r : Proposal) (job : Json) :
    (applyClient r job).sent_at = r.sent_at := by
  unfold applyClient; split <;> rfl

theorem applyClient_scheduled_at (r : Proposal) (job : Json) :
    (applyClient r job).scheduled_at = r.scheduled_at := by
  unfold applyClient; split <;> rfl

theorem applyClient_created_at (r : Proposal) (job : Json) :
    (applyClient r job).created_at = r.created_at := by
  unfold applyClient; split <;> rfl

theorem applyClient_proposal_id (r : Proposal) (job : Json) :
    (applyClient r job).proposal_id = r.proposal_id := by
  unfold applyClient; split <;> rfl

theorem applyClient_status (r : Proposal) (job : Json) :
    (applyClient r job).status = r.status := by
  unfold applyClient; split <;> rfl

theorem applyJob_proposal_id (p : PyPrims) (r : Proposal) (d : Json) :
    (applyJob p r d).proposal_id = r.proposal_id := by
  unfold applyJob; split
  · rw [applyClient_proposal_id]
  · rfl

theorem applyJob_status (p : PyPrims) (r : Proposal) (d : Json) :
    (applyJob p r d).status = r.status := by
  unfold applyJob; split
  · rw [applyClient_status]
  · rfl

theorem applyJob_sent_at (p : PyPrims) (r : Proposal) (d : Json) :
    (applyJob p r d).sent_at = r.sent_at := by
  unfold applyJob; split
  · rw [applyClient_sent_at]
  · rfl

theorem applyJob_scheduled_at (p : PyPrims) (r : Proposal) (d : Json) :
    (applyJob p r d).scheduled_at = r.scheduled_at := by
  unfold applyJob; split
  · rw [applyClient_scheduled_at]
  · rfl

theorem applyJob_created_at (p : PyPrims) (r : Proposal) (d : Json) :
    (applyJob p r d).created_at = r.created_at := by
  unfold applyJob; split
  · rw [applyClient_created_at]
  · rfl

theorem applyPayload_proposal_id (p : PyPrims) (r : Proposal) (d : Json) :
    (applyPayload p r d).proposal_id = r.proposal_id := by
  show (applyJob p (applyBase p r d) d).proposal_id = r.proposal_id
  rw [applyJob_proposal_id]; rfl

theorem applyPayload_status (p : PyPrims) (r : Proposal) (d : Json) :
    (applyPayload p r d).status = r.status := by
  show (applyJob p (applyBase p r d) d).status = r.status
  rw [applyJob_status]; rfl

theorem applyPayload_raw_data (p : PyPrims) (r : Proposal) (d : Json) :
    (applyPayload p r d).raw_data = d := rfl

theorem applyPayload_idem (p : PyPrims) (r : Proposal) (d : Json) :
    applyPayload p (applyPayload p r d) d = applyPayload p r d := by
  cases r with
  | mk pid oid jid st sa sca ca he ec em si sn ti tn jt jb jty ce cn cc hci hdi rdta =>
    by_cases hjob : isObj (jGetD d "job" (.obj [])) = true
    · by_cases hcl : isObj (jGetD (jGetD d "job" (.obj [])) "client" (.obj [])) = true
      · simp [applyPayload, applyJob, applyClient, applyBase, hjob, hcl,
              updTimestamp_idem, updCreatedAt_idem, updBudget_idem]
      · simp [applyPayload, applyJob, applyClient, applyBase, hjob, hcl,
              updTimestamp_idem, updCreatedAt_idem, updBudget_idem]
    · simp [applyPayload, applyJob, applyBase, hjob,
            updTimestamp_idem, updCreatedAt_idem]

/-! ### Store lemmas -/

theorem findById_eq_pid {s : Store} {pid : Json} {r : Proposal}
    (h : findById s pid = some r) : r.proposal_id = pid := by
  induction s with
  | nil => simp [findById] at h
  | cons a as ih =>
    by_cases ha : a.proposal_id = pid
    · simp [findById, ha] at h; rw [← h]; exact ha
    · simp [findById, ha] at h; exact ih h

theorem replaceById_of_found {s : Store} {pid : Json} {u : Proposal}
    (h : findById s pid = some u) : replaceById s pid u = s := by
  induction s with
  | nil => simp [findById] at h
  | cons a as ih =>
    by_cases ha : a.proposal_id = pid
    · simp [findById, ha] at h
      subst h
      simp [replaceById, ha]
    · simp [findById, ha] at h
      simp [replaceById, ha, ih h]

theorem findById_replace {s : Store} {pid : Json} {r u : Proposal}
    (h : findById s pid = some r) (hu : u.proposal_id = pid) :
    findById (replaceById s pid u) pid = some u := by
  induction s with
  | nil => simp [findById] at h
  | cons a as ih =>
    by_cases ha : a.proposal_id = pid
    · simp [replaceById, ha, findById, hu]
    · simp [findById, ha] at h
      simp [replaceById, ha, findById, ih h]

theorem findById_append_last {s : Store} {pid : Json} (u : Proposal)
    (h : findById s pid = none) (hu : u.proposal_id = pid) :
    findById (s ++ [u]) pid = some u := by
  induction s with
  | nil => simp [findById, hu]
  | cons a as ih =>
    by_cases ha : a.proposal_id = pid
    · simp [findById, ha] at h
    · simp [findById, ha] at h ⊢
      exact ih h

theorem countId_zero_of_not_found {s : Store} {pid : Json}
    (h : findById s pid = none) : countId s pid = 0 := by
  induction s with
  | nil => rfl
  | cons a as ih =>
    by_cases ha : a.proposal_id = pid
    · simp [findById, ha] at h
    · simp [findById, ha] at h
      simp [countId, ha, ih h]

theorem countId_pos_of_found {s : Store} {pid : Json} {r : Proposal}
    (h : findById s pid = some r) : 1 ≤ countId s pid := by
  induction s with
  | nil => simp [findById] at h
  | cons a as ih =>
    by_cases ha : a.proposal_id = pid
    · simp [countId, ha]
    · simp [findById, ha] at h
      simp [countId, ha, ih h]

theorem countId_append (s t : Store) (pid : Json) :
    countId (s ++ t) pid = countId s pid + countId t pid := by
  induction s with
  | nil => simp [countId]
  | cons a as ih => simp [countId, ih]; omega

theorem countId_replace (s : Store) {pid : Json} {u : Proposal}
    (hu : u.proposal_id = pid) :
    countId (replaceById s pid u) pid = countId s pid := by
  induction s with
  | nil => rfl
  | cons a as ih =>
    by_cases ha : a.proposal_id = pid
    · simp [replaceById, ha, countId, hu]
    · simp [replaceById, ha, countId, ih]

/-- A payload yielding an identifier is necessarily a dict (every lookup on
a non-dict evaluates to a falsy `None`). -/
theorem extractProposalId_isObj {d : Json} {pid : Json}
    (h : extractProposalId d = some pid) : isObj d = true := by
  cases d <;> simp_all [extractProposalId, jGetD, jGet, jOr3, jOr, truthy, isObj]

/-! ### One delivery, and idempotence of repeated delivery -/

theorem stepStore_eq_of_found {p : PyPrims} {s : Store} {d pid : Json} {prior : Proposal}
    (hobj : isObj d = true) (hid : extractProposalId d = some pid)
    (hf : findById s pid = some prior) :
    stepStore p s d = replaceById s pid (applyPayload p prior d) := by
  cases d <;> simp_all [stepStore, create_from_webhook_data, isObj]

theorem stepStore_eq_of_not_found {p : PyPrims} {s : Store} {d pid : Json}
    (hobj : isObj d = true) (hid : extractProposalId d = some pid)
    (hf : findById s pid = none) :
    stepStore p s d = s ++ [applyPayload p (bareProposal pid) d] := by
  cases d <;> simp_all [stepStore, create_from_webhook_data, isObj]

theorem stepStore_idem (p : PyPrims) (s : Store) (d : Json) :
    stepStore p (stepStore p s d) d = stepStore p s d := by
  cases hd : d with
  | obj fs =>
    cases hid : extractProposalId (Json.obj fs) with
    | none => simp [stepStore, create_from_webhook_data, hid]
    | some pid =>
      have hobj : isObj (Json.obj fs) = true := rfl
      cases hf : findById s pid with
      | none =>
        have h1 : stepStore p s (Json.obj fs) =
            s ++ [applyPayload p (bareProposal pid) (Json.obj fs)] :=
          stepStore_eq_of_not_found hobj hid hf
        have hupid : (applyPayload p (bareProposal pid) (Json.obj fs)).proposal_id = pid := by
          rw [applyPayload_proposal_id]; rfl
        have h2 : findById (stepStore p s (Json.obj fs)) pid =
            some (applyPayload p (bareProposal pid) (Json.obj fs)) := by
          rw [h1]; exact findById_append_last _ hf hupid
        rw [stepStore_eq_of_found hobj hid h2, applyPayload_idem,
            replaceById_of_found h2]
      | some prior =>
        have h1 : stepStore p s (Json.obj fs) =
            replaceById s pid (applyPayload p prior (Json.obj fs)) :=
          stepStore_eq_of_found hobj hid hf
        have hupid : (applyPayload p prior (Json.obj fs)).proposal_id = pid := by
          rw [applyPayload_proposal_id]; exact findById_eq_pid hf
        have h2 : findById (stepStore p s (Json.obj fs)) pid =
            some (applyPayload p prior (Json.obj fs)) := by
          rw [h1]; exact findById_replace hf hupid
        rw [stepStore_eq_of_found hobj hid h2, applyPayload_idem,
            replaceById_of_found h2]
  | null => simp [stepStore, create_from_webhook_data]
  | bool b => simp [stepStore, create_from_webhook_data]
  | num n => simp [stepStore, create_from_webhook_data]
  | str s' => simp [stepStore, create_from_webhook_data]
  | arr es => simp [stepStore, create_from_webhook_data]

theorem deliverN_fixed (p : PyPrims) (d : Json) :
    ∀ n (s : Store), stepStore p s d = s → deliverN p n s d = s := by
  intro n
  induction n with
  | zero => intro s _; rfl
  | succ m ih =>
    intro s h
    show deliverN p m (stepStore p s d) d = s
    rw [h]; exact ih s h

theorem deliverN_collapse (p : PyPrims) (s : Store) (d : Json) (n : Nat) :
    deliverN p (n + 1) s d = stepStore p s d := by
  show deliverN p n (stepStore p s d) d = stepStore p s d
  exact deliverN_fixed p d n _ (stepStore_idem p s d)

/-! ### Claims about the proposal store -/

/-- C1: delivering the same payload (with a recognized, truthy identifier)
N times leaves the store exactly as one delivery does: the single record for
that `proposal_id` has the fields extracted from the payload and `raw_data`
equal to the payload, and there is exactly one such record (upsert, no
duplicate insert), for all N ≥ 1, given the DB unique constraint on the
starting store. -/
theorem c1_upsert_idempotent (p : PyPrims) (s : Store) (d pid : Json)
    (hid : extractProposalId d = some pid) (huniq : countId s pid ≤ 1) :
    ∀ n : Nat, 1 ≤ n →
      deliverN p n s d = deliverN p 1 s d ∧
      countId (deliverN p 1 s d) pid = 1 ∧
      ∃ r, findById (deliverN p 1 s d) pid = some r ∧
        r = applyPayload p ((findById s pid).getD (bareProposal pid)) d ∧
        r.raw_data = d ∧ r.proposal_id = pid := by
  intro n hn
  have hobj : isObj d = true := extractProposalId_isObj hid
  have h1 : deliverN p 1 s d = stepStore p s d := deliverN_collapse p s d 0
  refine ⟨?_, ?_, ?_⟩
  · cases n with
    | zero => omega
    | succ m => rw [deliverN_collapse, h1]
  · rw [h1]
    cases hf : findById s pid with
    | none =>
      rw [stepStore_eq_of_not_found hobj hid hf, countId_append,
          countId_zero_of_not_found hf]
      have hupid : (applyPayload p (bareProposal pid) d).proposal_id = pid := by
        rw [applyPayload_proposal_id]; rfl
      simp [countId, hupid]
    | some prior =>
      have hupid : (applyPayload p prior d).proposal_id = pid := by
        rw [applyPayload_proposal_id]; exact findById_eq_pid hf
      rw [stepStore_eq_of_found hobj hid hf, countId_replace _ hupid]
      have := countId_pos_of_found hf
      omega
  · rw [h1]
    cases hf : findById s pid with
    | none =>
      have hupid : (applyPayload p (bareProposal pid) d).proposal_id = pid := by
        rw [applyPayload_proposal_id]; rfl
      refine ⟨applyPayload p (bareProposal pid) d, ?_, by simp [hf], ?_, hupid⟩
      · rw [stepStore_eq_of_not_found hobj hid hf]
        exact findById_append_last _ hf hupid
      · exact applyPayload_raw_data p _ d
    | some prior =>
      have hupid : (applyPayload p prior d).proposal_id = pid := by
        rw [applyPayload_proposal_id]; exact findById_eq_pid hf
      refine ⟨applyPayload p prior d, ?_, by simp [hf], ?_, hupid⟩
      · rw [stepStore_eq_of_found hobj hid hf]
        exact findById_replace hf hupid
      · exact applyPayload_raw_data p _ d

theorem c1_upsert_idempotent_witness :
    extractProposalId payloadA = some (.str "p1") ∧
    countId [] (Json.str "p1") ≤ 1 ∧
    (deliverN pTest 3 [] payloadA = deliverN pTest 1 [] payloadA ∧
     countId (deliverN pTest 1 [] payloadA) (.str "p1") = 1 ∧
     ∃ r, findById (deliverN pTest 1 [] payloadA) (.str "p1") = some r ∧
       r = applyPayload pTest ((findById [] (Json.str "p1")).getD (bareProposal (.str "p1"))) payloadA ∧
       r.raw_data = payloadA ∧ r.proposal_id = .str "p1") :=
  ⟨by rfl, by decide,
   c1_upsert_idempotent pTest [] payloadA (.str "p1") (by rfl) (by decide) 3 (by omega)⟩

/-- C2: a payload from which no identifier key yields an identifier makes
`create_from_webhook_data` raise the `ValueError` and leaves the table
untouched: no record is created or modified. -/
theorem c2_missing_id_rejected (p : PyPrims) (s : Store) (fs : List (String × Json))
    (hid : extractProposalId (Json.obj fs) = none) :
    create_from_webhook_data p s (Json.obj fs) =
      .error (.valueError "Proposal ID не знайдено в даних") ∧
    stepStore p s (Json.obj fs) = s := by
  refine ⟨?_, ?_⟩
  · simp [create_from_webhook_data, hid]
  · simp [stepStore, create_from_webhook_data, hid]

theorem c2_missing_id_rejected_witness :
    extractProposalId (Json.obj [("foo", .str "bar")]) = none ∧
    (create_from_webhook_data pTest [] (Json.obj [("foo", .str "bar")]) =
      .error (.valueError "Proposal ID не знайдено в даних") ∧
     stepStore pTest [] (Json.obj [("foo", .str "bar")]) = []) :=
  ⟨by rfl, c2_missing_id_rejected pTest [] [("foo", .str "bar")] (by rfl)⟩

/-- A falsy value under every identifier key makes the extracted identifier
come out empty, exactly as if the keys were absent. -/
theorem extractProposalId_none_of_falsy (d : Json)
    (h1 : ∀ v, jGet d "id" = some v → truthy v = false)
    (h2 : ∀ v, jGet d "proposalId" = some v → truthy v = false)
    (h3 : ∀ v, jGet d "_id" = some v → truthy v = false) :
    extractProposalId d = none := by
  have f1 : truthy (jGetD d "id" .null) = false := by
    cases hv : jGet d "id" with
    | none => simp [jGetD, hv, truthy]
    | some v => simpa [jGetD, hv] using h1 v hv
  have f2 : truthy (jGetD d "proposalId" .null) = false := by
    cases hv : jGet d "proposalId" with
    | none => simp [jGetD, hv, truthy]
    | some v => simpa [jGetD, hv] using h2 v hv
  have f3 : truthy (jGetD d "_id" .null) = false := by
    cases hv : jGet d "_id" with
    | none => simp [jGetD, hv, truthy]
    | some v => simpa [jGetD, hv] using h3 v hv
  simp [extractProposalId, jOr3, jOr, f1, f2, f3]

/-- C10: an identifier key that is present but holds a falsy value
(empty string, 0, null, false, ...) is treated exactly like a missing
identifier: the same `ValueError` is raised and the table is untouched;
key presence alone never suffices. -/
theorem c10_falsy_id_rejected (p : PyPrims) (s : Store) (fs : List (String × Json))
    (hpresent : jHasKey (Json.obj fs) "id" = true ∨
      jHasKey (Json.obj fs) "proposalId" = true ∨ jHasKey (Json.obj fs) "_id" = true)
    (h1 : ∀ v, jGet (Json.obj fs) "id" = some v → truthy v = false)
    (h2 : ∀ v, jGet (Json.obj fs) "proposalId" = some v → truthy v = false)
    (h3 : ∀ v, jGet (Json.obj fs) "_id" = some v → truthy v = false) :
    create_from_webhook_data p s (Json.obj fs) =
      .error (.valueError "Proposal ID не знайдено в даних") ∧
    stepStore p s (Json.obj fs) = s :=
  c2_missing_id_rejected p s fs (extractProposalId_none_of_falsy _ h1 h2 h3)

/-! ### Prior-independence of the overwritten fields -/

theorem updTimestamp_indep (p : PyPrims) (x y : Option TimeVal) (v : Option Json)
    (hk : v.isSome = true)
    (hp : ∀ sv, v = some (.str sv) → p.parseDatetime sv ≠ .err) :
    updTimestamp p x v = updTimestamp p y v := by
  match v with
  | none => simp at hk
  | some .null => rfl
  | some (.bool b) => rfl
  | some (.num n) => rfl
  | some (.arr es) => rfl
  | some (.obj fs) => rfl
  | some (.str sv) =>
    cases hpd : p.parseDatetime sv with
    | ok t => simp [updTimestamp, hpd]
    | noMatch => simp [updTimestamp, hpd]
    | err => exact absurd hpd (hp sv rfl)

theorem updCreatedAt_indep (p : PyPrims) (x y : Option TimeVal) (d : Json)
    (hc : (jHasKey d "createdAt" || jHasKey d "created_at") = true)
    (hp : ∀ sv, jOr (jGetD d "createdAt" .null) (jGetD d "created_at" .null) = .str sv →
      p.parseDatetime sv ≠ .err) :
    updCreatedAt p x d = updCreatedAt p y d := by
  unfold updCreatedAt
  rw [hc]
  simp only [if_true]
  exact updTimestamp_indep p x y _ rfl (fun sv hv => hp sv (by injection hv))

theorem updBudget_indep (p : PyPrims) (x y : Option Rat) (job : Json)
    (hbt : truthy (budgetChain job) = true)
    (hbf : pyFloat p (budgetChain job) ≠ none) :
    updBudget p x job = updBudget p y job := by
  unfold updBudget
  rw [hbt]
  cases hv : pyFloat p (budgetChain job) with
  | none => exact absurd hv hbf
  | some q => simp

/-- Every field that a faithful delivery maps from the payload is
independent of the row's prior contents, provided the payload actually
supplies it (timestamp keys present with non-raising values, job
sub-document a dict with a coercible truthy budget); `status` (and the
CRM ids, never assigned here) keep the prior value; `raw_data` becomes the
payload. -/
theorem applyPayload_overwrites (p : PyPrims) (r r' : Proposal) (d : Json)
    (hsent : (jGet d "sent").isSome = true)
    (hsentp : ∀ sv, jGet d "sent" = some (.str sv) → p.parseDatetime sv ≠ .err)
    (hsch : (jGet d "scheduledAt").isSome = true)
    (hschp : ∀ sv, jGet d "scheduledAt" = some (.str sv) → p.parseDatetime sv ≠ .err)
    (hcr : (jHasKey d "createdAt" || jHasKey d "created_at") = true)
    (hcrp : ∀ sv, jOr (jGetD d "createdAt" .null) (jGetD d "created_at" .null) = .str sv →
      p.parseDatetime sv ≠ .err)
    (hjob : isObj (jGetD d "job" (.obj [])) = true)
    (hbt : truthy (budgetChain (jGetD d "job" (.obj []))) = true)
    (hbf : pyFloat p (budgetChain (jGetD d "job" (.obj []))) ≠ none) :
    (applyPayload p r d).status = r.status ∧
    (applyPayload p r d).raw_data = d ∧
    (applyPayload p r d).opportunity_id = (applyPayload p r' d).opportunity_id ∧
    (applyPayload p r d).job_id = (applyPayload p r' d).job_id ∧
    (applyPayload p r d).sent_at = (applyPayload p r' d).sent_at ∧
    (applyPayload p r d).scheduled_at = (applyPayload p r' d).scheduled_at ∧
    (applyPayload p r d).created_at = (applyPayload p r' d).created_at ∧
    (applyPayload p r d).has_error = (applyPayload p r' d).has_error ∧
    (applyPayload p r d).error_code = (applyPayload p r' d).error_code ∧
    (applyPayload p r d).error_message = (applyPayload p r' d).error_message ∧
    (applyPayload p r d).scanner_id = (applyPayload p r' d).scanner_id ∧
    (applyPayload p r d).scanner_name = (applyPayload p r' d).scanner_name ∧
    (applyPayload p r d).team_id = (applyPayload p r' d).team_id ∧
    (applyPayload p r d).team_name = (applyPayload p r' d).team_name ∧
    (applyPayload p r d).job_title = (applyPayload p r' d).job_title ∧
    (applyPayload p r d).job_budget = (applyPayload p r' d).job_budget ∧
    (applyPayload p r d).job_type = (applyPayload p r' d).job_type ∧
    (applyPayload p r d).client_email = (applyPayload p r' d).client_email ∧
    (applyPayload p r d).client_name = (applyPayload p r' d).client_name ∧
    (applyPayload p r d).client_company = (applyPayload p r' d).client_company := by
  cases r with
  | mk pid oid jid st sa sca ca he ec em si sn ti tn jt jb jty ce cn cc hci hdi rdta =>
  cases r' with
  | mk pid' oid' jid' st' sa' sca' ca' he' ec' em' si' sn' ti' tn' jt' jb' jty' ce' cn' cc' hci' hdi' rdta' =>
    by_cases hcl : isObj (jGetD (jGetD d "job" (.obj [])) "client" (.obj [])) = true
    · simp [applyPayload, applyJob, applyClient, applyBase, hjob, hcl]
      exact ⟨updTimestamp_indep p _ _ _ hsent hsentp,
        updTimestamp_indep p _ _ _ hsch hschp,
        updCreatedAt_indep p _ _ _ hcr hcrp,
        updBudget_indep p _ _ _ hbt hbf⟩
    · simp [applyPayload, applyJob, applyClient, applyBase, hjob, hcl]
      exact ⟨updTimestamp_indep p _ _ _ hsent hsentp,
        updTimestamp_indep p _ _ _ hsch hschp,
        updCreatedAt_indep p _ _ _ hcr hcrp,
        updBudget_indep p _ _ _ hbt hbf⟩

/-! ### C9: overwrite on re-delivery -/

/-- C9 counterexample: re-delivering a payload with `status = "NEW"` for an
existing record whose status is `"OLD"` leaves the stored status at `"OLD"`:
`create_from_webhook_data` never reads `status` from the payload, so the
claimed full overwrite "including status" fails. -/
theorem c9_counterexample_status_not_overwritten :
    (savedRecord pTest [proposalOld] payloadStatusNew).map Proposal.status =
      some (.str "OLD") ∧
    jGet payloadStatusNew "status" = some (.str "NEW") ∧
    (savedRecord pTest [proposalOld] payloadStatusNew).map Proposal.status ≠
      some (.str "NEW") :=
  ⟨rfl, rfl, by decide⟩

/-- C9 amended: on a delivery after the first (a row for the identifier
already exists), the saved record's payload-mapped fields are fully
determined by the new payload — independent of the prior row — whenever the
payload supplies them (timestamp keys present with non-raising values, job
sub-document a dict with a coercible truthy budget), and `raw_data` is
replaced by the payload; `status`, however, is never read from the payload
and keeps its prior value. -/
theorem c9_overwrite_except_status (p : PyPrims) (s : Store) (d pid : Json)
    (prior : Proposal)
    (hid : extractProposalId d = some pid)
    (hf : findById s pid = some prior)
    (hsent : (jGet d "sent").isSome = true)
    (hsentp : ∀ sv, jGet d "sent" = some (.str sv) → p.parseDatetime sv ≠ .err)
    (hsch : (jGet d "scheduledAt").isSome = true)
    (hschp : ∀ sv, jGet d "scheduledAt" = some (.str sv) → p.parseDatetime sv ≠ .err)
    (hcr : (jHasKey d "createdAt" || jHasKey d "created_at") = true)
    (hcrp : ∀ sv, jOr (jGetD d "createdAt" .null) (jGetD d "created_at" .null) = .str sv →
      p.parseDatetime sv ≠ .err)
    (hjob : isObj (jGetD d "job" (.obj [])) = true)
    (hbt : truthy (budgetChain (jGetD d "job" (.obj []))) = true)
    (hbf : pyFloat p (budgetChain (jGetD d "job" (.obj []))) ≠ none) :
    ∃ s', create_from_webhook_data p s d = .ok (applyPayload p prior d, s') ∧
      (applyPayload p prior d).status = prior.status ∧
      (applyPayload p prior d).raw_data = d ∧
      ∀ r' : Proposal,
        (applyPayload p r' d).opportunity_id = (applyPayload p prior d).opportunity_id ∧
        (applyPayload p r' d).job_id = (applyPayload p prior d).job_id ∧
        (applyPayload p r' d).sent_at = (applyPayload p prior d).sent_at ∧
        (applyPayload p r' d).scheduled_at = (applyPayload p prior d).scheduled_at ∧
        (applyPayload p r' d).created_at = (applyPayload p prior d).created_at ∧
        (applyPayload p r' d).has_error = (applyPayload p prior d).has_error ∧
        (applyPayload p r' d).error_code = (applyPayload p prior d).error_code ∧
        (applyPayload p r' d).error_message = (applyPayload p prior d).error_message ∧
        (applyPayload p r' d).scanner_id = (applyPayload p prior d).scanner_id ∧
        (applyPayload p r' d).scanner_name = (applyPayload p prior d).scanner_name ∧
        (applyPayload p r' d).team_id = (applyPayload p prior d).team_id ∧
        (applyPayload p r' d).team_name = (applyPayload p prior d).team_name ∧
        (applyPayload p r' d).job_title = (applyPayload p prior d).job_title ∧
        (applyPayload p r' d).job_budget = (applyPayload p prior d).job_budget ∧
        (applyPayload p r' d).job_type = (applyPayload p prior d).job_type ∧
        (applyPayload p r' d).client_email = (applyPayload p prior d).client_email ∧
        (applyPayload p r' d).client_name = (applyPayload p prior d).client_name ∧
        (applyPayload p r' d).client_company = (applyPayload p prior d).client_company := by
  have hobj : isObj d = true := extractProposalId_isObj hid
  refine ⟨replaceById s pid (applyPayload p prior d), ?_, applyPayload_status p prior d, applyPayload_raw_data p prior d, ?_⟩
  · cases d <;> simp_all [create_from_webhook_data, isObj]
  · intro r'
    obtain ⟨-, -, h3, h4, h5, h6, h7, h8, h9, h10, h11, h12, h13, h14, h15, h16, h17, h18, h19, h20⟩ :=
      applyPayload_overwrites p r' prior d hsent hsentp hsch hschp hcr hcrp hjob hbt hbf
    exact ⟨h3, h4, h5, h6, h7, h8, h9, h10, h11, h12, h13, h14, h15, h16, h17, h18, h19, h20⟩

theorem c9_overwrite_except_status_witness :
    extractProposalId payloadA = some (.str "p1") ∧
    findById [proposalOld] (.str "p1") = some proposalOld ∧
    ∃ s', create_from_webhook_data pTest [proposalOld] payloadA =
        .ok (applyPayload pTest proposalOld payloadA, s') ∧
      (applyPayload pTest proposalOld payloadA).status = proposalOld.status ∧
      (applyPayload pTest proposalOld payloadA).raw_data = payloadA ∧
      ∀ r' : Proposal,
        (applyPayload pTest r' payloadA).opportunity_id = (applyPayload pTest proposalOld payloadA).opportunity_id ∧
        (applyPayload pTest r' payloadA).job_id = (applyPayload pTest proposalOld payloadA).job_id ∧
        (applyPayload pTest r' payloadA).sent_at = (applyPayload pTest proposalOld payloadA).sent_at ∧
        (applyPayload pTest r' payloadA).scheduled_at = (applyPayload pTest proposalOld payloadA).scheduled_at ∧
        (applyPayload pTest r' payloadA).created_at = (applyPayload pTest proposalOld payloadA).created_at ∧
        (applyPayload pTest r' payloadA).has_error = (applyPayload pTest proposalOld payloadA).has_error ∧
        (applyPayload pTest r' payloadA).error_code = (applyPayload pTest proposalOld payloadA).error_code ∧
        (applyPayload pTest r' payloadA).error_message = (applyPayload pTest proposalOld payloadA).error_message ∧
        (applyPayload pTest r' payloadA).scanner_id = (applyPayload pTest proposalOld payloadA).scanner_id ∧
        (applyPayload pTest r' payloadA).scanner_name = (applyPayload pTest proposalOld payloadA).scanner_name ∧
        (applyPayload pTest r' payloadA).team_id = (applyPayload pTest proposalOld payloadA).team_id ∧
        (applyPayload pTest r' payloadA).team_name = (applyPayload pTest proposalOld payloadA).team_name ∧
        (applyPayload pTest r' payloadA).job_title = (applyPayload pTest proposalOld payloadA).job_title ∧
        (applyPayload pTest r' payloadA).job_budget = (applyPayload pTest proposalOld payloadA).job_budget ∧
        (applyPayload pTest r' payloadA).job_type = (applyPayload pTest proposalOld payloadA).job_type ∧
        (applyPayload pTest r' payloadA).client_email = (applyPayload pTest proposalOld payloadA).client_email ∧
        (applyPayload pTest r' payloadA).client_name = (applyPayload pTest proposalOld payloadA).client_name ∧
        (applyPayload pTest r' payloadA).client_company = (applyPayload pTest proposalOld payloadA).client_company :=
  ⟨by rfl, by rfl,
   c9_overwrite_except_status pTest [proposalOld] payloadA (.str "p1") proposalOld
     (by rfl) (by rfl)
     (by rfl)
     (by intro sv hv; injection hv with h; injection h with h2; subst h2; decide)
     (by rfl)
     (by intro sv hv; injection hv with h; injection h with h2; subst h2; decide)
     (by rfl)
     (by intro sv hv; injection hv with h2; subst h2; decide)
     (by rfl) (by rfl) (by decide)⟩

/-! ### C4: malformed timestamp isolation -/

theorem applyPayload_sent_at (p : PyPrims) (r : Proposal) (d : Json) :
    (applyPayload p r d).sent_at = updTimestamp p r.sent_at (jGet d "sent") := by
  show (applyJob p (applyBase p r d) d).sent_at = _
  rw [applyJob_sent_at]; rfl

/-- Two payloads agreeing on every key other than `sent` produce the same
saved record apart from `sent_at` and `raw_data`: whatever happens while
parsing `sent` is isolated to that one field. -/
theorem applyPayload_congr_except_sent (p : PyPrims) (r : Proposal) (d d' : Json)
    (x : Option TimeVal) (y : Json)
    (hk : ∀ k : String, k ≠ "sent" → jGet d k = jGet d' k) :
    { applyPayload p r d with sent_at := x, raw_data := y } =
    { applyPayload p r d' with sent_at := x, raw_data := y } := by
  have e1 := hk "opportunityId" (by decide)
  have e2 := hk "opportunity_id" (by decide)
  have e3 := hk "jobId" (by decide)
  have e4 := hk "job_id" (by decide)
  have e5 := hk "scheduledAt" (by decide)
  have e6 := hk "createdAt" (by decide)
  have e7 := hk "created_at" (by decide)
  have e8 := hk "error" (by decide)
  have e9 := hk "hasError" (by decide)
  have e10 := hk "errorCode" (by decide)
  have e11 := hk "error_code" (by decide)
  have e12 := hk "errorMessage" (by decide)
  have e13 := hk "error_message" (by decide)
  have e14 := hk "scannerId" (by decide)
  have e15 := hk "scanner_id" (by decide)
  have e16 := hk "scannerName" (by decide)
  have e17 := hk "scanner_name" (by decide)
  have e18 := hk "teamId" (by decide)
  have e19 := hk "team_id" (by decide)
  have e20 := hk "teamName" (by decide)
  have e21 := hk "team_name" (by decide)
  have e22 := hk "job" (by decide)
  cases r with
  | mk pid oid jid st sa sca ca he ec em si sn ti tn jt jb jty ce cn cc hci hdi rdta =>
    by_cases hj : isObj ((jGet d "job").getD (Json.obj [])) = true
    · have hj' : isObj ((jGet d' "job").getD (Json.obj [])) = true := by
        rw [← e22]; exact hj
      by_cases hcl : isObj ((jGet ((jGet d "job").getD (Json.obj [])) "client").getD (Json.obj [])) = true
      · have hcl' : isObj ((jGet ((jGet d' "job").getD (Json.obj [])) "client").getD (Json.obj [])) = true := by
          rw [← e22]; exact hcl
        simp [applyPayload, applyJob, applyClient, applyBase, updCreatedAt, jGetD, jHasKey,
          hj, hj', hcl, hcl', e1, e2, e3, e4, e5, e6, e7, e8, e9, e10, e11, e12, e13,
          e14, e15, e16, e17, e18, e19, e20, e21, e22]
      · have hcl' : ¬ isObj ((jGet ((jGet d' "job").getD (Json.obj [])) "client").getD (Json.obj [])) = true := by
          rw [← e22]; exact hcl
        simp [applyPayload, applyJob, applyClient, applyBase, updCreatedAt, jGetD, jHasKey,
          hj, hj', hcl, hcl', e1, e2, e3, e4, e5, e6, e7, e8, e9, e10, e11, e12, e13,
          e14, e15, e16, e17, e18, e19, e20, e21, e22]
    · have hj' : ¬ isObj ((jGet d' "job").getD (Json.obj [])) = true := by
        rw [← e22]; exact hj
      simp [applyPayload, applyJob, applyClient, applyBase, updCreatedAt, jGetD, jHasKey,
        hj, hj', e1, e2, e3, e4, e5, e6, e7, e8, e9, e10, e11, e12, e13,
        e14, e15, e16, e17, e18, e19, e20, e21, e22]

theorem applyPayload_scheduled_at (p : PyPrims) (r : Proposal) (d : Json) :
    (applyPayload p r d).scheduled_at = updTimestamp p r.scheduled_at (jGet d "scheduledAt") := by
  show (applyJob p (applyBase p r d) d).scheduled_at = _
  rw [applyJob_scheduled_at]; rfl

theorem applyPayload_created_at (p : PyPrims) (r : Proposal) (d : Json) :
    (applyPayload p r d).created_at = updCreatedAt p r.created_at d := by
  show (applyJob p (applyBase p r d) d).created_at = _
  rw [applyJob_created_at]; rfl

/-- Two payloads agreeing on every key other than `scheduledAt` produce
the same saved record apart from `scheduled_at` and `raw_data`. -/
theorem applyPayload_congr_except_scheduledAt (p : PyPrims) (r : Proposal) (d d' : Json)
    (x : Option TimeVal) (y : Json)
    (hk : ∀ k : String, k ≠ "scheduledAt" → jGet d k = jGet d' k) :
    { applyPayload p r d with scheduled_at := x, raw_data := y } =
    { applyPayload p r d' with scheduled_at := x, raw_data := y } := by
  have e1 := hk "opportunityId" (by decide)
  have e2 := hk "opportunity_id" (by decide)
  have e3 := hk "jobId" (by decide)
  have e4 := hk "job_id" (by decide)
  have e5 := hk "sent" (by decide)
  have e6 := hk "createdAt" (by decide)
  have e7 := hk "created_at" (by decide)
  have e8 := hk "error" (by decide)
  have e9 := hk "hasError" (by decide)
  have e10 := hk "errorCode" (by decide)
  have e11 := hk "error_code" (by decide)
  have e12 := hk "errorMessage" (by decide)
  have e13 := hk "error_message" (by decide)
  have e14 := hk "scannerId" (by decide)
  have e15 := hk "scanner_id" (by decide)
  have e16 := hk "scannerName" (by decide)
  have e17 := hk "scanner_name" (by decide)
  have e18 := hk "teamId" (by decide)
  have e19 := hk "team_id" (by decide)
  have e20 := hk "teamName" (by decide)
  have e21 := hk "team_name" (by decide)
  have e22 := hk "job" (by decide)
  cases r with
  | mk pid oid jid st sa sca ca he ec em si sn ti tn jt jb jty ce cn cc hci hdi rdta =>
    by_cases hj : isObj ((jGet d "job").getD (Json.obj [])) = true
    · have hj' : isObj ((jGet d' "job").getD (Json.obj [])) = true := by
        rw [← e22]; exact hj
      by_cases hcl : isObj ((jGet ((jGet d "job").getD (Json.obj [])) "client").getD (Json.obj [])) = true
      · have hcl' : isObj ((jGet ((jGet d' "job").getD (Json.obj [])) "client").getD (Json.obj [])) = true := by
          rw [← e22]; exact hcl
        simp [applyPayload, applyJob, applyClient, applyBase, updCreatedAt, jGetD, jHasKey,
          hj, hj', hcl, hcl', e1, e2, e3, e4, e5, e6, e7, e8, e9, e10, e11, e12, e13,
          e14, e15, e16, e17, e18, e19, e20, e21, e22]
      · have hcl' : ¬ isObj ((jGet ((jGet d' "job").getD (Json.obj [])) "client").getD (Json.obj [])) = true := by
          rw [← e22]; exact hcl
        simp [applyPayload, applyJob, applyClient, applyBase, updCreatedAt, jGetD, jHasKey,
          hj, hj', hcl, hcl', e1, e2, e3, e4, e5, e6, e7, e8, e9, e10, e11, e12, e13,
          e14, e15, e16, e17, e18, e19, e20, e21, e22]
    · have hj' : ¬ isObj ((jGet d' "job").getD (Json.obj [])) = true := by
        rw [← e22]; exact hj
      simp [applyPayload, applyJob, applyClient, applyBase, updCreatedAt, jGetD, jHasKey,
        hj, hj', e1, e2, e3, e4, e5, e6, e7, e8, e9, e10, e11, e12, e13,
        e14, e15, e16, e17, e18, e19, e20, e21, e22]

/-- Two payloads agreeing on every key other than `createdAt` and
`created_at` produce the same saved record apart from `created_at` and
`raw_data`. -/
theorem applyPayload_congr_except_createdAt (p : PyPrims) (r : Proposal) (d d' : Json)
    (x : Option TimeVal) (y : Json)
    (hk : ∀ k : String, k ≠ "createdAt" → k ≠ "created_at" → jGet d k = jGet d' k) :
    { applyPayload p r d with created_at := x, raw_data := y } =
    { applyPayload p r d' with created_at := x, raw_data := y } := by
  have e1 := hk "opportunityId" (by decide) (by decide)
  have e2 := hk "opportunity_id" (by decide) (by decide)
  have e3 := hk "jobId" (by decide) (by decide)
  have e4 := hk "job_id" (by decide) (by decide)
  have e5 := hk "sent" (by decide) (by decide)
  have e6 := hk "scheduledAt" (by decide) (by decide)
  have e8 := hk "error" (by decide) (by decide)
  have e9 := hk "hasError" (by decide) (by decide)
  have e10 := hk "errorCode" (by decide) (by decide)
  have e11 := hk "error_code" (by decide) (by decide)
  have e12 := hk "errorMessage" (by decide) (by decide)
  have e13 := hk "error_message" (by decide) (by decide)
  have e14 := hk "scannerId" (by decide) (by decide)
  have e15 := hk "scanner_id" (by decide) (by decide)
  have e16 := hk "scannerName" (by decide) (by decide)
  have e17 := hk "scanner_name" (by decide) (by decide)
  have e18 := hk "teamId" (by decide) (by decide)
  have e19 := hk "team_id" (by decide) (by decide)
  have e20 := hk "teamName" (by decide) (by decide)
  have e21 := hk "team_name" (by decide) (by decide)
  have e22 := hk "job" (by decide) (by decide)
  cases r with
  | mk pid oid jid st sa sca ca he ec em si sn ti tn jt jb jty ce cn cc hci hdi rdta =>
    by_cases hj : isObj ((jGet d "job").getD (Json.obj [])) = true
    · have hj' : isObj ((jGet d' "job").getD (Json.obj [])) = true := by
        rw [← e22]; exact hj
      by_cases hcl : isObj ((jGet ((jGet d "job").getD (Json.obj [])) "client").getD (Json.obj [])) = true
      · have hcl' : isObj ((jGet ((jGet d' "job").getD (Json.obj [])) "client").getD (Json.obj [])) = true := by
          rw [← e22]; exact hcl
        simp [applyPayload, applyJob, applyClient, applyBase, jGetD,
          hj, hj', hcl, hcl', e1, e2, e3, e4, e5, e6, e8, e9, e10, e11, e12, e13,
          e14, e15, e16, e17, e18, e19, e20, e21, e22]
      · have hcl' : ¬ isObj ((jGet ((jGet d' "job").getD (Json.obj [])) "client").getD (Json.obj [])) = true := by
          rw [← e22]; exact hcl
        simp [applyPayload, applyJob, applyClient, applyBase, jGetD,
          hj, hj', hcl, hcl', e1, e2, e3, e4, e5, e6, e8, e9, e10, e11, e12, e13,
          e14, e15, e16, e17, e18, e19, e20, e21, e22]
    · have hj' : ¬ isObj ((jGet d' "job").getD (Json.obj [])) = true := by
        rw [← e22]; exact hj
      simp [applyPayload, applyJob, applyBase, jGetD,
        hj, hj', e1, e2, e3, e4, e5, e6, e8, e9, e10, e11, e12, e13,
        e14, e15, e16, e17, e18, e19, e20, e21, e22]

/-- A payload with a recognized identifier makes `create_from_webhook_data`
succeed, handing back the prior (or fresh) row updated from the payload. -/
theorem create_eq_applyPayload (p : PyPrims) (s : Store) (d pid : Json)
    (hid : extractProposalId d = some pid) :
    ∃ s', create_from_webhook_data p s d =
      .ok (applyPayload p ((findById s pid).getD (bareProposal pid)) d, s') := by
  have hobj : isObj d = true := extractProposalId_isObj hid
  cases hf : findById s pid with
  | none =>
    refine ⟨s ++ [applyPayload p (bareProposal pid) d], ?_⟩
    cases d <;> simp_all [create_from_webhook_data, isObj]
  | some prior =>
    refine ⟨replaceById s pid (applyPayload p prior d), ?_⟩
    cases d <;> simp_all [create_from_webhook_data, isObj]

/-- C4 counterexample: a date string that fails to match the datetime
format makes `parse_datetime` return `None`, which the code assigns — so an
existing record's previously populated `sent_at` is cleared, not "left
unchanged", while the upsert still succeeds. -/
theorem c4_counterexample_field_cleared :
    pTest.parseDatetime "garbage" = .noMatch ∧
    proposalSentEarlier.sent_at = some (.parsed 555) ∧
    (savedRecord pTest [proposalSentEarlier] payloadBadSent).map Proposal.sent_at =
      some none ∧
    (savedRecord pTest [proposalSentEarlier] payloadBadSent).map Proposal.sent_at ≠
      some proposalSentEarlier.sent_at :=
  ⟨rfl, rfl, rfl, by decide⟩

/-- C4 amended: with a malformed date string under any one of the three
timestamp fields — `sent`, `scheduledAt`, or `createdAt`/`created_at` —
(either failing to match the datetime format, or matching but raising on
construction) the upsert still succeeds; the affected field ends up unset
(`None` assigned) in the no-match case and unchanged in the raising case;
and every other field is populated exactly as it would be from any payload
agreeing on the remaining keys — the failure is isolated to that one field
(`raw_data` still records the delivered payload verbatim). -/
theorem c4_malformed_date_isolated (p : PyPrims) (s : Store) (d pid : Json) (sv : String)
    (hid : extractProposalId d = some pid)
    (hbad : p.parseDatetime sv = .noMatch ∨ p.parseDatetime sv = .err) :
    (jGet d "sent" = some (.str sv) →
      ∃ u s', create_from_webhook_data p s d = .ok (u, s') ∧
        u = applyPayload p ((findById s pid).getD (bareProposal pid)) d ∧
        u.raw_data = d ∧
        u.sent_at = (if p.parseDatetime sv = .noMatch then none
          else ((findById s pid).getD (bareProposal pid)).sent_at) ∧
        (∀ d' : Json, (∀ k : String, k ≠ "sent" → jGet d k = jGet d' k) →
          ∀ x y, { u with sent_at := x, raw_data := y } =
            { applyPayload p ((findById s pid).getD (bareProposal pid)) d' with
                sent_at := x, raw_data := y })) ∧
    (jGet d "scheduledAt" = some (.str sv) →
      ∃ u s', create_from_webhook_data p s d = .ok (u, s') ∧
        u = applyPayload p ((findById s pid).getD (bareProposal pid)) d ∧
        u.raw_data = d ∧
        u.scheduled_at = (if p.parseDatetime sv = .noMatch then none
          else ((findById s pid).getD (bareProposal pid)).scheduled_at) ∧
        (∀ d' : Json, (∀ k : String, k ≠ "scheduledAt" → jGet d k = jGet d' k) →
          ∀ x y, { u with scheduled_at := x, raw_data := y } =
            { applyPayload p ((findById s pid).getD (bareProposal pid)) d' with
                scheduled_at := x, raw_data := y })) ∧
    ((jHasKey d "createdAt" || jHasKey d "created_at") = true →
      jOr (jGetD d "createdAt" .null) (jGetD d "created_at" .null) = .str sv →
      ∃ u s', create_from_webhook_data p s d = .ok (u, s') ∧
        u = applyPayload p ((findById s pid).getD (bareProposal pid)) d ∧
        u.raw_data = d ∧
        u.created_at = (if p.parseDatetime sv = .noMatch then none
          else ((findById s pid).getD (bareProposal pid)).created_at) ∧
        (∀ d' : Json, (∀ k : String, k ≠ "createdAt" → k ≠ "created_at" → jGet d k = jGet d' k) →
          ∀ x y, { u with created_at := x, raw_data := y } =
            { applyPayload p ((findById s pid).getD (bareProposal pid)) d' with
                created_at := x, raw_data := y })) := by
  obtain ⟨s', hs'⟩ := create_eq_applyPayload p s d pid hid
  refine ⟨?_, ?_, ?_⟩
  · intro hsent
    refine ⟨applyPayload p ((findById s pid).getD (bareProposal pid)) d, s', hs', rfl,
      applyPayload_raw_data p _ d, ?_, ?_⟩
    · rw [applyPayload_sent_at, hsent]
      cases hbad with
      | inl h => simp [updTimestamp, h]
      | inr h => simp [updTimestamp, h]
    · intro d' hkk x y
      exact applyPayload_congr_except_sent p _ d d' x y hkk
  · intro hsch
    refine ⟨applyPayload p ((findById s pid).getD (bareProposal pid)) d, s', hs', rfl,
      applyPayload_raw_data p _ d, ?_, ?_⟩
    · rw [applyPayload_scheduled_at, hsch]
      cases hbad with
      | inl h => simp [updTimestamp, h]
      | inr h => simp [updTimestamp, h]
    · intro d' hkk x y
      exact applyPayload_congr_except_scheduledAt p _ d d' x y hkk
  · intro hkey hchain
    refine ⟨applyPayload p ((findById s pid).getD (bareProposal pid)) d, s', hs', rfl,
      applyPayload_raw_data p _ d, ?_, ?_⟩
    · rw [applyPayload_created_at]
      unfold updCreatedAt
      rw [hkey, hchain]
      cases hbad with
      | inl h => simp [updTimestamp, h]
      | inr h => simp [updTimestamp, h]
    · intro d' hkk x y
      exact applyPayload_congr_except_createdAt p _ d d' x y hkk

theorem c4_malformed_date_isolated_witness :
    extractProposalId payloadBadSent = some (.str "p1") ∧
    jGet payloadBadSent "sent" = some (.str "garbage") ∧
    pTest.parseDatetime "garbage" = .noMatch ∧
    (∃ u s', create_from_webhook_data pTest [proposalSentEarlier] payloadBadSent = .ok (u, s') ∧
      u = applyPayload pTest ((findById [proposalSentEarlier] (.str "p1")).getD (bareProposal (.str "p1"))) payloadBadSent ∧
      u.raw_data = payloadBadSent ∧
      u.sent_at = (if pTest.parseDatetime "garbage" = .noMatch then none
        else ((findById [proposalSentEarlier] (.str "p1")).getD (bareProposal (.str "p1"))).sent_at) ∧
      (∀ d' : Json, (∀ k : String, k ≠ "sent" → jGet payloadBadSent k = jGet d' k) →
        ∀ x y, { u with sent_at := x, raw_data := y } =
          { applyPayload pTest ((findById [proposalSentEarlier] (.str "p1")).getD (bareProposal (.str "p1"))) d' with
              sent_at := x, raw_data := y })) ∧
    jGet payloadBadScheduled "scheduledAt" = some (.str "garbage") ∧
    (∃ u s', create_from_webhook_data pTest [] payloadBadScheduled = .ok (u, s') ∧
      u = applyPayload pTest ((findById [] (.str "p1")).getD (bareProposal (.str "p1"))) payloadBadScheduled ∧
      u.raw_data = payloadBadScheduled ∧
      u.scheduled_at = (if pTest.parseDatetime "garbage" = .noMatch then none
        else ((findById [] (.str "p1")).getD (bareProposal (.str "p1"))).scheduled_at) ∧
      (∀ d' : Json, (∀ k : String, k ≠ "scheduledAt" → jGet payloadBadScheduled k = jGet d' k) →
        ∀ x y, { u with scheduled_at := x, raw_data := y } =
          { applyPayload pTest ((findById [] (.str "p1")).getD (bareProposal (.str "p1"))) d' with
              scheduled_at := x, raw_data := y })) ∧
    pTest.parseDatetime "2024-13-45T99:99:99" = .err ∧
    ((jHasKey payloadBadCreated "createdAt" || jHasKey payloadBadCreated "created_at") = true) ∧
    (∃ u s', create_from_webhook_data pTest [] payloadBadCreated = .ok (u, s') ∧
      u = applyPayload pTest ((findById [] (.str "p1")).getD (bareProposal (.str "p1"))) payloadBadCreated ∧
      u.raw_data = payloadBadCreated ∧
      u.created_at = (if pTest.parseDatetime "2024-13-45T99:99:99" = .noMatch then none
        else ((findById [] (.str "p1")).getD (bareProposal (.str "p1"))).created_at) ∧
      (∀ d' : Json, (∀ k : String, k ≠ "createdAt" → k ≠ "created_at" → jGet payloadBadCreated k = jGet d' k) →
        ∀ x y, { u with created_at := x, raw_data := y } =
          { applyPayload pTest ((findById [] (.str "p1")).getD (bareProposal (.str "p1"))) d' with
              created_at := x, raw_data := y })) :=
  ⟨by rfl, by rfl, by rfl,
   (c4_malformed_date_isolated pTest [proposalSentEarlier] payloadBadSent (.str "p1")
     "garbage" (by rfl) (Or.inl (by rfl))).1 (by rfl),
   by rfl,
   (c4_malformed_date_isolated pTest [] payloadBadScheduled (.str "p1")
     "garbage" (by rfl) (Or.inl (by rfl))).2.1 (by rfl),
   by rfl, by rfl,
   (c4_malformed_date_isolated pTest [] payloadBadCreated (.str "p1")
     "2024-13-45T99:99:99" (by rfl) (Or.inr (by rfl))).2.2 (by rfl) (by rfl)⟩

theorem c10_falsy_id_rejected_witness :
    jHasKey (Json.obj [("id", .str ""), ("proposalId", .num 0), ("_id", .bool false)]) "id" = true ∧
    (create_from_webhook_data pTest []
        (Json.obj [("id", .str ""), ("proposalId", .num 0), ("_id", .bool false)]) =
      .error (.valueError "Proposal ID не знайдено в даних") ∧
     stepStore pTest []
        (Json.obj [("id", .str ""), ("proposalId", .num 0), ("_id", .bool false)]) = []) :=
  ⟨by rfl,
   c10_falsy_id_rejected pTest [] [("id", .str ""), ("proposalId", .num 0), ("_id", .bool false)]
     (Or.inl (by rfl))
     (by intro v hv; injection hv with h; subst h; rfl)
     (by intro v hv; injection hv with h; subst h; rfl)
     (by intro v hv; injection hv with h; subst h; rfl)⟩

/-! ### Claims about the CRM client -/

/-- C5: `create_contact` returns the new contact's id on success; on a 409
conflict (contact already exists) it falls back to the exact-email search
and returns that contact's id — the first search result — or `None` when
the search finds nothing or raises; any other API failure yields `None`,
never an exception to the caller. -/
theorem c5_create_contact_conflict_fallback (o : CrmOracle)
    (email firstname lastname phone company : Json) (kwargs : List (String × Json)) :
    (∀ cid, o.contactCreateApi (contactProps email firstname lastname phone company kwargs) = .ok cid →
      (create_contact o email firstname lastname phone company kwargs).1 = some cid) ∧
    (o.contactCreateApi (contactProps email firstname lastname phone company kwargs) = .err 409 →
      (create_contact o email firstname lastname phone company kwargs).1 =
        (find_contact_by_email o email).1 ∧
      (∀ ids, o.contactSearchApi email = .ok ids →
        (find_contact_by_email o email).1 = ids.head?) ∧
      (o.contactSearchApi email = .exc → (find_contact_by_email o email).1 = none)) ∧
    (∀ st, o.contactCreateApi (contactProps email firstname lastname phone company kwargs) = .err st →
      st ≠ 409 → (create_contact o email firstname lastname phone company kwargs).1 = none) := by
  refine ⟨?_, ?_, ?_⟩
  · intro cid h
    simp [create_contact, h]
  · intro h
    refine ⟨by simp [create_contact, h], ?_, ?_⟩
    · intro ids hs
      simp [find_contact_by_email, hs]
    · intro hs
      simp [find_contact_by_email, hs]
  · intro st h hne
    simp [create_contact, h, hne]

theorem c5_create_contact_conflict_fallback_witness :
    (create_contact oracleOk (.str "a@b.com") .null .null .null .null []).1 = some "C100" ∧
    (create_contact oracleConflict (.str "a@b.com") .null .null .null .null []).1 = some "C9" ∧
    (create_contact oracleFail (.str "a@b.com") .null .null .null .null []).1 = none :=
  ⟨(c5_create_contact_conflict_fallback oracleOk (.str "a@b.com") .null .null .null .null []).1
     "C100" (by rfl),
   by
     have h := (c5_create_contact_conflict_fallback oracleConflict
       (.str "a@b.com") .null .null .null .null []).2.1 (by rfl)
     rw [h.1]; rfl,
   (c5_create_contact_conflict_fallback oracleFail (.str "a@b.com") .null .null .null .null []).2.2
     500 (by rfl) (by decide)⟩

/-- The CRM create call is always attempted (and logged) by `create_contact`. -/
theorem create_contact_logs_create (o : CrmOracle)
    (email firstname lastname phone company : Json) (kwargs : List (String × Json)) :
    CrmCall.contactCreate (contactProps email firstname lastname phone company kwargs) ∈
      (create_contact o email firstname lastname phone company kwargs).2 := by
  cases h : o.contactCreateApi (contactProps email firstname lastname phone company kwargs) with
  | ok cid => simp [create_contact, h]
  | err st =>
    by_cases h409 : st = 409 <;> simp [create_contact, h, h409]

/-- The deal create call is always attempted (and logged) by `create_deal`. -/
theorem create_deal_logs_create (o : CrmOracle) (dealname : String)
    (amount closedate : Option String) (dealstage pipeline : String)
    (contact_id : Option String) (kwargs : List (String × Json)) :
    CrmCall.dealCreate (dealProps dealname amount closedate dealstage pipeline kwargs) ∈
      (create_deal o dealname amount closedate dealstage pipeline contact_id kwargs).2 := by
  cases h : o.dealCreateApi (dealProps dealname amount closedate dealstage pipeline kwargs) with
  | ok did => simp [create_deal, h]
  | err st => simp [create_deal, h]

/-- C6: with no client email, `process_gigradar_opportunity` synthesizes
the placeholder email from the company name (lower-cased, spaces replaced
by underscores, suffixed `@gigradar.placeholder`; the name defaulting to
`"Unknown Company"` via the `or` chain), still attempts contact and deal
creation, and reports `success = true` iff a deal id was obtained (the API
returning nonempty ids). -/
theorem c6_placeholder_email (p : PyPrims) (o : CrmOracle) (d : Json) (c ds : String)
    (hobj : isObj d = true)
    (hjob : isObj (jGetD d "job" (.obj [])) = true)
    (hcl : isObj (jGetD (jGetD d "job" (.obj [])) "client" (.obj [])) = true)
    (hNoEmail : truthy (jOr (jGetD (jGetD (jGetD d "job" (.obj [])) "client" (.obj [])) "email" .null)
        (jGetD (jGetD d "job" (.obj [])) "clientEmail" .null)) = false)
    (hCompany : jOr3 (jGetD (jGetD (jGetD d "job" (.obj [])) "client" (.obj [])) "company" .null)
        (jGetD (jGetD d "job" (.obj [])) "companyName" .null) (.str "Unknown Company") = .str c)
    (hdesc : jGetD (jGetD d "job" (.obj [])) "description" (.str "") = .str ds)
    (hdeal : ∀ ps i, o.dealCreateApi ps = .ok i → i ≠ "") :
    (process_gigradar_opportunity p o d).1.contact_id =
      (create_contact o (.str ((replaceSpaces (pyLower c)) ++ "@gigradar.placeholder"))
        .null .null .null (.str c) []).1 ∧
    (∃ props, CrmCall.contactCreate props ∈ (process_gigradar_opportunity p o d).2 ∧
      lookupKey props "email" =
        some (.str ((replaceSpaces (pyLower c)) ++ "@gigradar.placeholder"))) ∧
    (∃ dp, CrmCall.dealCreate dp ∈ (process_gigradar_opportunity p o d).2) ∧
    ((process_gigradar_opportunity p o d).1.success = true ↔
      (process_gigradar_opportunity p o d).1.deal_id ≠ none) := by
  have h1 : (process_gigradar_opportunity p o d).1.contact_id =
      (create_contact o (.str ((replaceSpaces (pyLower c)) ++ "@gigradar.placeholder"))
        .null .null .null (.str c) []).1 := by
    simp [process_gigradar_opportunity, processInner, processDeals,
      hobj, hjob, hcl, hNoEmail, hCompany, hdesc, pySlice500]
  have hcalls : (process_gigradar_opportunity p o d).2 =
      (create_contact o (.str ((replaceSpaces (pyLower c)) ++ "@gigradar.placeholder"))
        .null .null .null (.str c) []).2 ++
      (create_deal o
        ("GigRadar Opportunity: " ++ pyStrOf p (jGetD (jGetD d "job" (.obj [])) "title" (.str "Untitled Job")))
        (if truthy (jOr (jGetD (jGetD d "job" (.obj [])) "budget" .null)
            (jGetD (jGetD d "job" (.obj [])) "hourlyRate" .null)) = true
         then some (pyStrOf p (jOr (jGetD (jGetD d "job" (.obj [])) "budget" .null)
            (jGetD (jGetD d "job" (.obj [])) "hourlyRate" .null)))
         else none)
        none "appointmentscheduled" "default"
        (create_contact o (.str ((replaceSpaces (pyLower c)) ++ "@gigradar.placeholder"))
          .null .null .null (.str c) []).1
        [("gigradar_opportunity_id", jGetD d "id" (.str "")),
         ("gigradar_job_id", jGetD d "jobId" (.str "")),
         ("job_title", jGetD (jGetD d "job" (.obj [])) "title" (.str "")),
         ("job_description", .str (ds.take 500))]).2 := by
    simp [process_gigradar_opportunity, processInner, processDeals,
      hobj, hjob, hcl, hNoEmail, hCompany, hdesc, pySlice500]
  have h2 : (process_gigradar_opportunity p o d).1.deal_id =
      (create_deal o
        ("GigRadar Opportunity: " ++ pyStrOf p (jGetD (jGetD d "job" (.obj [])) "title" (.str "Untitled Job")))
        (if truthy (jOr (jGetD (jGetD d "job" (.obj [])) "budget" .null)
            (jGetD (jGetD d "job" (.obj [])) "hourlyRate" .null)) = true
         then some (pyStrOf p (jOr (jGetD (jGetD d "job" (.obj [])) "budget" .null)
            (jGetD (jGetD d "job" (.obj [])) "hourlyRate" .null)))
         else none)
        none "appointmentscheduled" "default"
        (create_contact o (.str ((replaceSpaces (pyLower c)) ++ "@gigradar.placeholder"))
          .null .null .null (.str c) []).1
        [("gigradar_opportunity_id", jGetD d "id" (.str "")),
         ("gigradar_job_id", jGetD d "jobId" (.str "")),
         ("job_title", jGetD (jGetD d "job" (.obj [])) "title" (.str "")),
         ("job_description", .str (ds.take 500))]).1 := by
    simp [process_gigradar_opportunity, processInner, processDeals,
      hobj, hjob, hcl, hNoEmail, hCompany, hdesc, pySlice500]
  have h3 : (process_gigradar_opportunity p o d).1.success =
      optTruthy (process_gigradar_opportunity p o d).1.deal_id := by
    simp [process_gigradar_opportunity, processInner, processDeals,
      hobj, hjob, hcl, hNoEmail, hCompany, hdesc, pySlice500]
  refine ⟨h1, ?_, ?_, ?_⟩
  · refine ⟨contactProps (.str ((replaceSpaces (pyLower c)) ++ "@gigradar.placeholder"))
      .null .null .null (.str c) [], ?_, ?_⟩
    · rw [hcalls]
      exact List.mem_append_left _ (create_contact_logs_create o _ _ _ _ _ _)
    · simp [contactProps, lookupKey]
  · refine ⟨dealProps
      ("GigRadar Opportunity: " ++ pyStrOf p (jGetD (jGetD d "job" (.obj [])) "title" (.str "Untitled Job")))
      (if truthy (jOr (jGetD (jGetD d "job" (.obj [])) "budget" .null)
          (jGetD (jGetD d "job" (.obj [])) "hourlyRate" .null)) = true
       then some (pyStrOf p (jOr (jGetD (jGetD d "job" (.obj [])) "budget" .null)
          (jGetD (jGetD d "job" (.obj [])) "hourlyRate" .null)))
       else none)
      none "appointmentscheduled" "default"
      [("gigradar_opportunity_id", jGetD d "id" (.str "")),
       ("gigradar_job_id", jGetD d "jobId" (.str "")),
       ("job_title", jGetD (jGetD d "job" (.obj [])) "title" (.str "")),
       ("job_description", .str (ds.take 500))], ?_⟩
    rw [hcalls]
    exact List.mem_append_right _ (create_deal_logs_create o _ _ _ _ _ _ _)
  · rw [h3, h2]
    cases hda : o.dealCreateApi (dealProps
        ("GigRadar Opportunity: " ++ pyStrOf p (jGetD (jGetD d "job" (.obj [])) "title" (.str "Untitled Job")))
        (if truthy (jOr (jGetD (jGetD d "job" (.obj [])) "budget" .null)
            (jGetD (jGetD d "job" (.obj [])) "hourlyRate" .null)) = true
         then some (pyStrOf p (jOr (jGetD (jGetD d "job" (.obj [])) "budget" .null)
            (jGetD (jGetD d "job" (.obj [])) "hourlyRate" .null)))
         else none)
        none "appointmentscheduled" "default"
        [("gigradar_opportunity_id", jGetD d "id" (.str "")),
         ("gigradar_job_id", jGetD d "jobId" (.str "")),
         ("job_title", jGetD (jGetD d "job" (.obj [])) "title" (.str "")),
         ("job_description", .str (ds.take 500))]) with
    | ok did =>
      have hne := hdeal _ _ hda
      simp [create_deal, hda, optTruthy, hne]
    | err st =>
      simp [create_deal, hda, optTruthy]

theorem c6_placeholder_email_witness :
    ((replaceSpaces (pyLower "Acme Co")) ++ "@gigradar.placeholder") =
      "acme_co@gigradar.placeholder" ∧
    ((process_gigradar_opportunity pTest oracleOk payloadOpportunity).1.contact_id =
      (create_contact oracleOk
        (.str ((replaceSpaces (pyLower "Acme Co")) ++ "@gigradar.placeholder"))
        .null .null .null (.str "Acme Co") []).1 ∧
     (∃ props, CrmCall.contactCreate props ∈ (process_gigradar_opportunity pTest oracleOk payloadOpportunity).2 ∧
       lookupKey props "email" =
         some (.str ((replaceSpaces (pyLower "Acme Co")) ++ "@gigradar.placeholder"))) ∧
     (∃ dp, CrmCall.dealCreate dp ∈ (process_gigradar_opportunity pTest oracleOk payloadOpportunity).2) ∧
     ((process_gigradar_opportunity pTest oracleOk payloadOpportunity).1.success = true ↔
       (process_gigradar_opportunity pTest oracleOk payloadOpportunity).1.deal_id ≠ none)) := by
  refine ⟨by decide, ?_⟩
  have hmain := c6_placeholder_email pTest oracleOk payloadOpportunity "Acme Co"
    "A short description" (by rfl) (by rfl) (by rfl) (by rfl) (by rfl) (by rfl)
    (by intro ps i h; injection h with h2; subst h2; decide)
  refine ⟨hmain.1, ?_, hmain.2.2.1, hmain.2.2.2⟩
  obtain ⟨props, hmem, hlk⟩ := hmain.2.1
  exact ⟨props, hmem, hlk⟩

/-! ### C7: the orchestrator always returns a result document -/

theorem processDeals_errors_nil (p : PyPrims) (o : CrmOracle) (job jobId oppId : Json)
    (cid : Option String) (calls1 : List CrmCall) :
    (processDeals p o job jobId oppId cid calls1).1.errors = [] := by
  unfold processDeals
  cases h : pySlice500 (jGetD job "description" (.str "")) <;> simp [h, emptyResult]

theorem processDeals_exc_success (p : PyPrims) (o : CrmOracle) (job jobId oppId : Json)
    (cid : Option String) (calls1 : List CrmCall) :
    ∀ m, (processDeals p o job jobId oppId cid calls1).2.2 = some m →
      (processDeals p o job jobId oppId cid calls1).1.success = false := by
  intro m
  unfold processDeals
  cases h : pySlice500 (jGetD job "description" (.str "")) <;> simp [h, emptyResult]

theorem processInner_errors_nil (p : PyPrims) (o : CrmOracle) (d : Json) :
    (processInner p o d).1.errors = [] := by
  unfold processInner
  repeat' split
  all_goals first
    | exact processDeals_errors_nil p o _ _ _ _ _
    | simp [emptyResult]

theorem processInner_exc_success (p : PyPrims) (o : CrmOracle) (d : Json) :
    ∀ m, (processInner p o d).2.2 = some m → (processInner p o d).1.success = false := by
  intro m
  unfold processInner
  repeat' split
  all_goals first
    | exact processDeals_exc_success p o _ _ _ _ _ m
    | simp [emptyResult]

/-- C7: `process_gigradar_opportunity` is total over every payload and
oracle behaviour — it always hands back a result document carrying the four
keys `success`/`contact_id`/`deal_id`/`errors` and never lets an exception
escape: when the flow runs clean the errors list is empty, and when the
embedded flow raises, the exception's message is appended to `errors` (the
partial result, contact id included, is preserved) and `success` is
`false`. -/
theorem c7_process_never_raises (p : PyPrims) (o : CrmOracle) (d : Json) :
    ∃ r : ResultDoc, ∃ calls : List CrmCall,
      process_gigradar_opportunity p o d = (r, calls) ∧
      ((processInner p o d).2.2 = none →
        r = (processInner p o d).1 ∧ r.errors = []) ∧
      (∀ m, (processInner p o d).2.2 = some m →
        r = { (processInner p o d).1 with errors := [m] } ∧
        r.success = false) := by
  refine ⟨(process_gigradar_opportunity p o d).1, (process_gigradar_opportunity p o d).2,
    rfl, ?_, ?_⟩
  · intro hnone
    have h : process_gigradar_opportunity p o d =
        ((processInner p o d).1, (processInner p o d).2.1) := by
      unfold process_gigradar_opportunity
      rw [show processInner p o d =
        ((processInner p o d).1, (processInner p o d).2.1, (processInner p o d).2.2) from rfl,
        hnone]
    rw [h]
    exact ⟨rfl, processInner_errors_nil p o d⟩
  · intro m hm
    have h : process_gigradar_opportunity p o d =
        ({ (processInner p o d).1 with errors := (processInner p o d).1.errors ++ [m] },
         (processInner p o d).2.1) := by
      unfold process_gigradar_opportunity
      rw [show processInner p o d =
        ((processInner p o d).1, (processInner p o d).2.1, (processInner p o d).2.2) from rfl,
        hm]
    rw [h]
    constructor
    · rw [processInner_errors_nil p o d]
      simp
    · simp [processInner_exc_success p o d m hm]

theorem c7_process_never_raises_witness :
    (processInner pTest oracleOk Json.null).2.2 = some "AttributeError: get" ∧
    (∃ r : ResultDoc, ∃ calls : List CrmCall,
      process_gigradar_opportunity pTest oracleOk Json.null = (r, calls) ∧
      ((processInner pTest oracleOk Json.null).2.2 = none →
        r = (processInner pTest oracleOk Json.null).1 ∧ r.errors = []) ∧
      (∀ m, (processInner pTest oracleOk Json.null).2.2 = some m →
        r = { (processInner pTest oracleOk Json.null).1 with errors := [m] } ∧
        r.success = false)) :=
  ⟨by rfl, c7_process_never_raises pTest oracleOk Json.null⟩

/-! ### Claims about the webhook view -/

/-- C8: a POST whose path token differs from the configured, nonempty
`WEBHOOK_TOKEN` is answered 401 and has no side effects: the proposal table
is returned unchanged and no CRM call is made. -/
theorem c8_token_mismatch_no_side_effects (p : PyPrims) (o : CrmOracle) (env : Env)
    (s : Store) (pathToken authHeader : String) (body : Option Json) (t : String)
    (ht : env.webhookToken = some t) (htne : t ≠ "") (hmm : pathToken ≠ t) :
    postView p o env s pathToken authHeader body = (⟨401, .invalidToken⟩, s, []) := by
  have hmt : tokenMismatch env pathToken = true := by
    simp [tokenMismatch, ht, htne, hmm]
  simp [postView, hmt]

theorem c8_token_mismatch_no_side_effects_witness :
    envTokenOnly.webhookToken = some "secret" ∧
    postView pTest oracleOk envTokenOnly [proposalOld] "wrong" "" (some payloadA) =
      (⟨401, .invalidToken⟩, [proposalOld], []) :=
  ⟨by rfl,
   c8_token_mismatch_no_side_effects pTest oracleOk envTokenOnly [proposalOld]
     "wrong" "" (some payloadA) "secret" (by rfl) (by decide) (by decide)⟩

theorem handle_opportunity_create_status (p : PyPrims) (o : CrmOracle) (env : Env)
    (s : Store) (data : Json) :
    (handle_opportunity_create p o env s data).1.status = 200 := by
  unfold handle_opportunity_create
  repeat' split
  all_goals rfl

theorem handle_proposal_update_status (p : PyPrims) (s : Store) (data : Json) :
    (handle_proposal_update p s data).1.status = 200 := by
  unfold handle_proposal_update
  cases h : create_from_webhook_data p s data with
  | ok x => simp [h]
  | error e => cases e <;> simp [h]

theorem postView_status_200 (p : PyPrims) (o : CrmOracle) (env : Env) (s : Store)
    (pathToken authHeader : String) (payload : Json)
    (h1 : tokenMismatch env pathToken = false)
    (h2 : basicAuthMissing env authHeader = false) :
    (postView p o env s pathToken authHeader (some payload)).1.status = 200 := by
  unfold postView
  simp only [h1, h2, Bool.false_eq_true, if_false]
  repeat' split
  all_goals first
    | exact handle_opportunity_create_status p o env s _
    | exact handle_proposal_update_status p s _
    | rfl

/-- C3 counterexample: with basic-auth credentials configured and no
`Basic ` authorization header, a request that passes token validation (no
token configured) and carries valid JSON is still answered 401 — a third
non-200 case beyond token mismatch and malformed JSON. -/
theorem c3_counterexample_auth_required_non200 :
    tokenMismatch envCreds "anytok" = false ∧
    (some (Json.obj []) ≠ (none : Option Json)) ∧
    (postView pTest oracleOk envCreds [] "anytok" "" (some (.obj []))).1.status = 401 :=
  ⟨rfl, by decide, rfl⟩

/-- C3 amended: the response status is non-200 in exactly three cases —
the configured static token does not match the path token (401), the
request body is not valid JSON (400), or both basic-auth credential
variables are configured and the authorization header does not start with
`Basic ` (401); every other outcome reachable after these checks
(validation errors, CRM configuration errors, downstream failures, the
outer catch-all) is answered 200. -/
theorem c3_non200_exactly_three_cases (p : PyPrims) (o : CrmOracle) (env : Env)
    (s : Store) (pathToken authHeader : String) (body : Option Json) :
    (postView p o env s pathToken authHeader body).1.status ≠ 200 ↔
      (tokenMismatch env pathToken = true ∨ body = none ∨
        basicAuthMissing env authHeader = true) := by
  constructor
  · intro hne
    by_cases hmt : tokenMismatch env pathToken = true
    · exact Or.inl hmt
    cases body with
    | none => exact Or.inr (Or.inl rfl)
    | some payload =>
      by_cases hba : basicAuthMissing env authHeader = true
      · exact Or.inr (Or.inr hba)
      · exact absurd (postView_status_200 p o env s pathToken authHeader payload
          (by simpa using hmt) (by simpa using hba)) hne
  · rintro (hmt | hbn | hba)
    · simp [postView, hmt]
    · subst hbn
      by_cases hmt : tokenMismatch env pathToken = true <;> simp [postView, hmt]
    · by_cases hmt : tokenMismatch env pathToken = true
      · simp [postView, hmt]
      · cases body with
        | none => simp [postView, hmt]
        | some payload => simp [postView, hmt, hba]

theorem c3_non200_exactly_three_cases_witness :
    (postView pTest oracleOk envCreds [] "tk" "Basic dXNlcg==" (some payloadA)).1.status ≠ 200 ↔
      (tokenMismatch envCreds "tk" = true ∨ (some payloadA) = none ∨
        basicAuthMissing envCreds "Basic dXNlcg==" = true) :=
  c3_non200_exactly_three_cases pTest oracleOk envCreds [] "tk" "Basic dXNlcg==" (some payloadA)
